import Mathlib

/-! Network parameter registry (`src/chainparams.cpp`).

A shallow embedding of the chain-parameter definitions of the node: the seed
conversion routine `convertSeed6`, the three constructors `CMainParams`,
`CTestNetParams`, `CRegTestParams` (a C++ inheritance chain, so each constructor
first runs its base constructor), the file-level statics and the selection
functions `Params`, `SelectParams`, `SelectParamsFromCommandLine`.

Conventions of the embedding.

* A failed `assert` aborts the process: constructors and `SelectParams` return
  `Option`, with `none` for the abort.
* Services declared in headers that are not part of the translated file (block
  hashing, merkle tree, compact encoding, hex parsing, clock, random numbers,
  argument lookup) are parameters.
* Integers are mathematical integers, reduced explicitly where the source computes in a
  fixed width (the last-seen time of `convertSeed6`); `~uint256(0) >> k` is
  `(2^256 - 1) >>> k`.
-/

set_option linter.dupNamespace false

namespace ChainParams

/-! ## Data model -/

/-- Raw seed entry `struct SeedSpec6 { uint8_t addr[16]; uint16_t port; }`. -/
structure SeedSpec6 where
  addr : List Nat
  port : Nat
deriving DecidableEq, Repr

/-- Address record built by `CAddress(CService(ip, port))`, with the last-seen time
`nTime`, an `unsigned int` (32 bits). -/
structure CAddress where
  ip : List Nat
  port : Nat
  nTime : Nat
deriving DecidableEq, Repr

/-- One element pushed on a script with `<<`. -/
inductive ScriptElem where
  | num (n : Int)
  | bignum (n : Int)
  | bytes (b : List Nat)
deriving DecidableEq, Repr

/-- Transaction input; only `scriptSig` is assigned by the genesis construction. -/
structure CTxIn where
  scriptSig : List ScriptElem
deriving DecidableEq, Repr

/-- Transaction output. -/
structure CTxOut where
  nValue : Int
  scriptPubKey : List ScriptElem
deriving DecidableEq, Repr

/-- Transaction as built by `CTransaction(nVersion, nTime, vin, vout, nLockTime)`. -/
structure CTransaction where
  nVersion : Int
  nTime : Nat
  vin : List CTxIn
  vout : List CTxOut
  nLockTime : Nat
deriving DecidableEq, Repr

/-- Block header fields and transactions of `CBlock`. -/
structure CBlock where
  nVersion : Int
  hashPrevBlock : Nat
  hashMerkleRoot : Nat
  nTime : Nat
  nBits : Nat
  nNonce : Nat
  vtx : List CTransaction
deriving DecidableEq, Repr

/-- The table `base58Prefixes[...]`, one byte sequence per address kind. -/
structure Base58Prefixes where
  PUBKEY_ADDRESS : List Nat
  SCRIPT_ADDRESS : List Nat
  SECRET_KEY : List Nat
  EXT_PUBLIC_KEY : List Nat
  EXT_SECRET_KEY : List Nat
deriving DecidableEq, Repr

/-- Values of `CChainParams::Network`; `unimplemented` stands for any value of the
enumeration type other than the three that `SelectParams` handles. -/
inductive Network where
  | MAIN
  | TESTNET
  | REGTEST
  | unimplemented (raw : Nat)
deriving DecidableEq, Repr

/-- Data members of `CMainParams`: those of the base class `CChainParams` that the
constructors assign, followed by the two members `genesis` and `vFixedSeeds`
declared by `CMainParams` itself. -/
structure CMainParams where
  pchMessageStart : List Nat
  vAlertPubKey : List Nat
  nDefaultPort : Int
  nRPCPort : Int
  bnProofOfWorkLimit : Nat
  bnProofOfStakeLimit : Nat
  strDataDir : String
  hashGenesisBlock : Nat
  vSeeds : List String
  base58Prefixes : Base58Prefixes
  nTargetSpacing : Int
  nTargetTimespan : Int
  nLastPoWBlock : Int
  nStartPoSBlock : Int
  genesis : CBlock
  vFixedSeeds : List CAddress
deriving DecidableEq, Repr

/-- Class `CTestNetParams : public CMainParams`; it declares no data member of its own. -/
structure CTestNetParams extends CMainParams
deriving DecidableEq, Repr

/-- Class `CRegTestParams : public CTestNetParams`; it declares no data member of its own. -/
structure CRegTestParams extends CTestNetParams
deriving DecidableEq, Repr

/-! ## External services -/

/-- Block and encoding services used by the constructors; they are declared outside
the translated file and are kept abstract. -/
structure Services where
  GetHash : CBlock → Nat
  BuildMerkleTree : List CTransaction → Nat
  GetCompact : Nat → Nat
  ParseHex : String → List Nat

/-- Clock and random source: `clock k` is what the `k`-th call of `GetTime()` returns,
`entropy k nMax` what the `k`-th call of `GetRand(nMax)` returns. -/
structure Oracle where
  clock : Nat → Int
  entropy : Nat → Nat → Nat

/-- Number of calls made so far to each of the two services. -/
structure World where
  nTimeCalls : Nat
  nRandCalls : Nat
deriving DecidableEq, Repr

/-- Modelled from the spec: `GetTime()` of `util.h`, a wall-clock time source; each call
consumes the next clock reading. -/
def GetTime (O : Oracle) (w : World) : Int × World :=
  (O.clock w.nTimeCalls, { w with nTimeCalls := w.nTimeCalls + 1 })

/-- Modelled from the spec: `GetRand(nMax)` of `util.h`, a random-number source; each call
consumes the next random draw. -/
def GetRand (O : Oracle) (nMax : Nat) (w : World) : Nat × World :=
  (O.entropy w.nRandCalls nMax, { w with nRandCalls := w.nRandCalls + 1 })

/-- The compiled-in tables of `chainparamsseeds.h`. -/
structure SeedTables where
  pnSeed6_main : List SeedSpec6
  pnSeed6_test : List SeedSpec6
deriving DecidableEq, Repr

/-- Macro `ARRAYLEN(array)`: the number of elements of a static array. -/
def ARRAYLEN (table : List SeedSpec6) : Nat := table.length

/-! ## `convertSeed6` -/

/-- Constant `nOneWeek = 7*24*60*60` of `convertSeed6`. -/
def nOneWeek : Nat := 7 * 24 * 60 * 60

/-- Value stored by `addr.nTime = GetTime() - GetRand(nOneWeek) - nOneWeek`, where `now`
is the `int64_t` returned by `GetTime()` and `rnd` the `uint64_t` returned by `GetRand`:
the two subtractions are carried out in `uint64_t`, that is modulo `2^64`, and the result
is converted to the `unsigned int` field, that is reduced modulo `2^32`. -/
def lastSeenTime (now : Int) (rnd : Nat) : Nat :=
  let diff : Int := (now - (rnd : Int)) % 2 ^ 64
  let value : Int := (diff - (nOneWeek : Int)) % 2 ^ 64
  (value % 2 ^ 32).toNat

/-- The `for (unsigned int i = 0; i < count; i++)` loop of `convertSeed6`, started at index
`i` with `remaining = count - i` iterations to go.  Reading `data[i]` past the end of the
table has no defined result and yields `none`. -/
def convertSeed6Loop (O : Oracle) (data : List SeedSpec6) :
    (remaining : Nat) → (i : Nat) → List CAddress → World → Option (List CAddress × World)
  | 0, _, vSeedsOut, w => some (vSeedsOut, w)
  | remaining + 1, i, vSeedsOut, w =>
    match data[i]? with
    | none => none
    | some entry =>
      let ip := entry.addr
      let (now, w1) := GetTime O w
      let (rnd, w2) := GetRand O nOneWeek w1
      let addr : CAddress :=
        { ip := ip, port := entry.port, nTime := lastSeenTime now rnd }
      convertSeed6Loop O data remaining (i + 1) (vSeedsOut ++ [addr]) w2

/-- Function `convertSeed6(vSeedsOut, data, count)`: appends one address record per raw
entry to `vSeedsOut`. -/
def convertSeed6 (O : Oracle) (vSeedsOut : List CAddress) (data : List SeedSpec6)
    (count : Nat) (w : World) : Option (List CAddress × World) :=
  convertSeed6Loop O data count 0 vSeedsOut w

/-- Record that iteration `j` of the loop appends when the loop was entered in world `w`
and reads the raw entry `e`. -/
def seedRecord (O : Oracle) (w : World) (j : Nat) (e : SeedSpec6) : CAddress :=
  { ip := e.addr
    port := e.port
    nTime := lastSeenTime (O.clock (w.nTimeCalls + j))
      (O.entropy (w.nRandCalls + j) nOneWeek) }

/-- World after `k` further calls of each service. -/
def World.advance (w : World) (k : Nat) : World :=
  { nTimeCalls := w.nTimeCalls + k, nRandCalls := w.nRandCalls + k }

/-- Closed form of the records appended for a list of entries, first entry first. -/
def seedRecords (O : Oracle) : World → List SeedSpec6 → List CAddress
  | _, [] => []
  | w, e :: es => seedRecord O w 0 e :: seedRecords O (w.advance 1) es

/-! ## Constructors -/

/-- Statement `assert(cond)`: continues when the condition holds, aborts otherwise. -/
def assertion (cond : Bool) : Option Unit :=
  if cond then some () else none

/-- Value `~uint256(0) >> k`. -/
def uint256MaxShr (k : Nat) : Nat := (2 ^ 256 - 1) >>> k

/-- Bytes of a C string literal. -/
def cstr (s : String) : List Nat := s.toList.map Char.toNat

/-- State of the members before the body of `CMainParams()` runs: containers and strings
are empty, the genesis block is null, the scalars hold no meaningful value yet. -/
def CMainParams.uninitialised : CMainParams :=
  { pchMessageStart := [0, 0, 0, 0]
    vAlertPubKey := []
    nDefaultPort := 0
    nRPCPort := 0
    bnProofOfWorkLimit := 0
    bnProofOfStakeLimit := 0
    strDataDir := ""
    hashGenesisBlock := 0
    vSeeds := []
    base58Prefixes :=
      { PUBKEY_ADDRESS := [], SCRIPT_ADDRESS := [], SECRET_KEY := [],
        EXT_PUBLIC_KEY := [], EXT_SECRET_KEY := [] }
    nTargetSpacing := 0
    nTargetTimespan := 0
    nLastPoWBlock := 0
    nStartPoSBlock := 0
    genesis :=
      { nVersion := 0, hashPrevBlock := 0, hashMerkleRoot := 0, nTime := 0, nBits := 0,
        nNonce := 0, vtx := [] }
    vFixedSeeds := [] }

/-- Constructor `CMainParams::CMainParams()`. -/
def CMainParams.CMainParams (S : Services) (O : Oracle) (T : SeedTables) (w : World) :
    Option (ChainParams.CMainParams × World) := do
  let mut p : ChainParams.CMainParams := CMainParams.uninitialised
  p := { p with pchMessageStart := p.pchMessageStart.set 0 0x0a }
  p := { p with pchMessageStart := p.pchMessageStart.set 1 0xbc }
  p := { p with pchMessageStart := p.pchMessageStart.set 2 0x10 }
  p := { p with pchMessageStart := p.pchMessageStart.set 3 0x5f }
  p := { p with vAlertPubKey := S.ParseHex "04e44761e96c9056be6b659c04b94fbfebeb5d5257fe028e80695c62f7c2f81f85d131a669df3be611393f454852a2d08c6314aad5ca3cbe5616262db3d4a6efac" }
  p := { p with nDefaultPort := 32767 }
  p := { p with nRPCPort := 32768 }
  p := { p with bnProofOfWorkLimit := uint256MaxShr 20 }
  p := { p with bnProofOfStakeLimit := uint256MaxShr 20 }
  let pszTimestamp := "Jul 22, 2015 19:00:00 UTC : BiosCrypto"
  let vin : List CTxIn :=
    [{ scriptSig := [ScriptElem.num 0, ScriptElem.bignum 42, ScriptElem.bytes (cstr pszTimestamp)] }]
  let vout : List CTxOut := [{ nValue := 0, scriptPubKey := [] }]
  let txNew : CTransaction :=
    { nVersion := 1, nTime := 1437591600, vin := vin, vout := vout, nLockTime := 0 }
  p := { p with genesis := { p.genesis with vtx := p.genesis.vtx ++ [txNew] } }
  p := { p with genesis := { p.genesis with hashPrevBlock := 0 } }
  p := { p with genesis := { p.genesis with hashMerkleRoot := S.BuildMerkleTree p.genesis.vtx } }
  p := { p with genesis := { p.genesis with nVersion := 1 } }
  p := { p with genesis := { p.genesis with nTime := 1437591600 } }
  p := { p with genesis := { p.genesis with nBits := S.GetCompact p.bnProofOfWorkLimit } }
  p := { p with genesis := { p.genesis with nNonce := 1061886 } }
  p := { p with hashGenesisBlock := S.GetHash p.genesis }
  assertion (p.hashGenesisBlock = 0x000001815b44ae9b4b5a9f22ef95d5badc10e3b38503aee9b7e84f5ce2bf8efa)
  assertion (p.genesis.hashMerkleRoot = 0x90ac10dbdb97f5be41866194f4bc5f63a72ff47f13ba75513eaf77dfa8d6aeb3)
  p := { p with base58Prefixes := { p.base58Prefixes with PUBKEY_ADDRESS := [86] } }
  p := { p with base58Prefixes := { p.base58Prefixes with SCRIPT_ADDRESS := [85] } }
  p := { p with base58Prefixes := { p.base58Prefixes with SECRET_KEY := [214] } }
  p := { p with base58Prefixes := { p.base58Prefixes with EXT_PUBLIC_KEY := [0x04, 0x88, 0xB2, 0x1E] } }
  p := { p with base58Prefixes := { p.base58Prefixes with EXT_SECRET_KEY := [0x04, 0x88, 0xAD, 0xE4] } }
  let (seeds, w1) ← convertSeed6 O p.vFixedSeeds T.pnSeed6_main (ARRAYLEN T.pnSeed6_main) w
  p := { p with vFixedSeeds := seeds }
  p := { p with nTargetSpacing := 60 }
  p := { p with nTargetTimespan := 10 * p.nTargetSpacing }
  p := { p with nLastPoWBlock := 3100 }
  p := { p with nStartPoSBlock := 2800 }
  return (p, w1)

/-- Constructor `CTestNetParams::CTestNetParams()`; the base constructor `CMainParams()`
runs first. -/
def CTestNetParams.CTestNetParams (S : Services) (O : Oracle) (T : SeedTables) (w : World) :
    Option (ChainParams.CTestNetParams × World) := do
  let (base, w0) ← CMainParams.CMainParams S O T w
  let mut p : ChainParams.CTestNetParams := { toCMainParams := base }
  p := { p with pchMessageStart := p.pchMessageStart.set 0 0x0a }
  p := { p with pchMessageStart := p.pchMessageStart.set 1 0xbc }
  p := { p with pchMessageStart := p.pchMessageStart.set 2 0x10 }
  p := { p with pchMessageStart := p.pchMessageStart.set 3 0x60 }
  p := { p with bnProofOfWorkLimit := uint256MaxShr 16 }
  p := { p with bnProofOfStakeLimit := uint256MaxShr 16 }
  p := { p with vAlertPubKey := S.ParseHex "04e44761e96c9056be6b659c04b94fbfebeb5d5257fe028e80695c62f7c2f81f85d131a669df3be611393f454852a2d08c6314aad5ca3cbe5616262db3d4a6efac" }
  p := { p with nDefaultPort := 16383 }
  p := { p with nRPCPort := 16384 }
  p := { p with strDataDir := "testnet" }
  p := { p with genesis := { p.genesis with nBits := S.GetCompact p.bnProofOfWorkLimit } }
  p := { p with genesis := { p.genesis with nNonce := 344459 } }
  p := { p with hashGenesisBlock := S.GetHash p.genesis }
  assertion (p.hashGenesisBlock = 0x0000cef54c3c42240e2a4859db2020ac2afc2017832058d3599ba972db05cb77)
  p := { p with vFixedSeeds := [] }
  p := { p with vSeeds := [] }
  p := { p with base58Prefixes := { p.base58Prefixes with PUBKEY_ADDRESS := [118] } }
  p := { p with base58Prefixes := { p.base58Prefixes with SCRIPT_ADDRESS := [196] } }
  p := { p with base58Prefixes := { p.base58Prefixes with SECRET_KEY := [246] } }
  p := { p with base58Prefixes := { p.base58Prefixes with EXT_PUBLIC_KEY := [0x04, 0x35, 0x87, 0xCF] } }
  p := { p with base58Prefixes := { p.base58Prefixes with EXT_SECRET_KEY := [0x04, 0x35, 0x83, 0x94] } }
  let (seeds, w1) ← convertSeed6 O p.vFixedSeeds T.pnSeed6_test (ARRAYLEN T.pnSeed6_test) w0
  p := { p with vFixedSeeds := seeds }
  p := { p with nTargetSpacing := 30 }
  p := { p with nLastPoWBlock := 0x7fffffff }
  p := { p with nStartPoSBlock := 2800 }
  return (p, w1)

/-- Constructor `CRegTestParams::CRegTestParams()`; the base constructor
`CTestNetParams()` runs first. -/
def CRegTestParams.CRegTestParams (S : Services) (O : Oracle) (T : SeedTables) (w : World) :
    Option (ChainParams.CRegTestParams × World) := do
  let (base, w0) ← CTestNetParams.CTestNetParams S O T w
  let mut p : ChainParams.CRegTestParams := { toCTestNetParams := base }
  p := { p with pchMessageStart := p.pchMessageStart.set 0 0x0a }
  p := { p with pchMessageStart := p.pchMessageStart.set 1 0xbc }
  p := { p with pchMessageStart := p.pchMessageStart.set 2 0x10 }
  p := { p with pchMessageStart := p.pchMessageStart.set 3 0xfe }
  p := { p with bnProofOfWorkLimit := uint256MaxShr 1 }
  p := { p with genesis := { p.genesis with nTime := 1435708800 } }
  p := { p with genesis := { p.genesis with nBits := S.GetCompact p.bnProofOfWorkLimit } }
  p := { p with genesis := { p.genesis with nNonce := 8 } }
  p := { p with hashGenesisBlock := S.GetHash p.genesis }
  p := { p with nDefaultPort := 26244 }
  p := { p with strDataDir := "regtest" }
  assertion (p.hashGenesisBlock = 0x2fec6cc4a488fdcd250657555c69634070989874de455aa0ceeebc2494a49860)
  p := { p with vSeeds := [] }
  return (p, w0)

/-! ## File-level statics and selection -/

/-- Reference to an object of one of the three classes, as seen through
`const CChainParams &`. -/
inductive CChainParamsRef where
  | ofMain (obj : CMainParams)
  | ofTestNet (obj : CTestNetParams)
  | ofRegTest (obj : CRegTestParams)
deriving DecidableEq, Repr

/-- Data members of the referenced object. -/
def CChainParamsRef.members : CChainParamsRef → CMainParams
  | .ofMain obj => obj
  | .ofTestNet obj => obj.toCMainParams
  | .ofRegTest obj => obj.toCMainParams

/-- Virtual function `NetworkID()`, overridden in each of the three classes. -/
def CChainParamsRef.NetworkID : CChainParamsRef → Network
  | .ofMain _ => Network.MAIN
  | .ofTestNet _ => Network.TESTNET
  | .ofRegTest _ => Network.REGTEST

/-- Virtual function `FixedSeeds()`, defined in `CMainParams` and inherited. -/
def CChainParamsRef.FixedSeeds (r : CChainParamsRef) : List CAddress :=
  r.members.vFixedSeeds

/-- Virtual function `GenesisBlock()`, defined in `CMainParams` and inherited. -/
def CChainParamsRef.GenesisBlock (r : CChainParamsRef) : CBlock :=
  r.members.genesis

/-- The address stored in `pCurrentParams`: one of `&mainParams`, `&testNetParams`,
`&regTestParams`. -/
inductive ParamsPtr where
  | mainParams
  | testNetParams
  | regTestParams
deriving DecidableEq, Repr

/-- The statics of the file: the three parameter objects and `pCurrentParams`. -/
structure Globals where
  mainParams : CMainParams
  testNetParams : CTestNetParams
  regTestParams : CRegTestParams
  pCurrentParams : ParamsPtr
deriving DecidableEq, Repr

/-- Static initialisation, in order of definition: `mainParams`, `testNetParams`,
`regTestParams`, then `pCurrentParams = &mainParams`. -/
def staticInit (S : Services) (O : Oracle) (T : SeedTables) (w : World) :
    Option (Globals × World) := do
  let (mainParams, w1) ← CMainParams.CMainParams S O T w
  let (testNetParams, w2) ← CTestNetParams.CTestNetParams S O T w1
  let (regTestParams, w3) ← CRegTestParams.CRegTestParams S O T w2
  return ({ mainParams := mainParams, testNetParams := testNetParams,
            regTestParams := regTestParams, pCurrentParams := ParamsPtr.mainParams }, w3)

/-- Function `Params()`: `return *pCurrentParams;`. -/
def Params (g : Globals) : CChainParamsRef :=
  match g.pCurrentParams with
  | .mainParams => .ofMain g.mainParams
  | .testNetParams => .ofTestNet g.testNetParams
  | .regTestParams => .ofRegTest g.regTestParams

/-- Function `SelectParams(network)`; `none` is the `assert(false && "Unimplemented network")`
of the default branch. -/
def SelectParams (network : Network) (g : Globals) : Option Globals :=
  match network with
  | .MAIN => some { g with pCurrentParams := ParamsPtr.mainParams }
  | .TESTNET => some { g with pCurrentParams := ParamsPtr.testNetParams }
  | .REGTEST => some { g with pCurrentParams := ParamsPtr.regTestParams }
  | .unimplemented _ => none

/-- Function `SelectParamsFromCommandLine()`; `GetBoolArg` is the argument lookup of
`util.h`.  The result pairs the returned `bool` with the statics after the call. -/
def SelectParamsFromCommandLine (GetBoolArg : String → Bool → Bool) (g : Globals) :
    Option (Bool × Globals) :=
  let fRegTest := GetBoolArg "-regtest" false
  let fTestNet := GetBoolArg "-testnet" false
  if fTestNet && fRegTest then
    some (false, g)
  else
    (if fRegTest then SelectParams Network.REGTEST g
     else if fTestNet then SelectParams Network.TESTNET g
     else SelectParams Network.MAIN g).map (fun g1 => (true, g1))

/-! ## Concrete instances used to evaluate the definitions -/

/-- A block-service instance whose hashes are the published ones: the hash is looked up
by nonce, the merkle root is the published root. -/
def demoServices : Services :=
  { GetHash := fun b =>
      if b.nNonce = 1061886 then
        0x000001815b44ae9b4b5a9f22ef95d5badc10e3b38503aee9b7e84f5ce2bf8efa
      else if b.nNonce = 344459 then
        0x0000cef54c3c42240e2a4859db2020ac2afc2017832058d3599ba972db05cb77
      else 0x2fec6cc4a488fdcd250657555c69634070989874de455aa0ceeebc2494a49860
    BuildMerkleTree := fun _ =>
      0x90ac10dbdb97f5be41866194f4bc5f63a72ff47f13ba75513eaf77dfa8d6aeb3
    GetCompact := fun n => n
    ParseHex := fun s => cstr s }

/-- A clock fixed at 1 500 000 000 s whose random draws are `k mod nMax`. -/
def demoOracle : Oracle :=
  { clock := fun _ => 1500000000
    entropy := fun k nMax => k % nMax }

/-- A clock that reads 0 (the epoch) with random draws that are always 0. -/
def epochOracle : Oracle :=
  { clock := fun _ => 0
    entropy := fun _ _ => 0 }

/-- A clock that reads `2^32 + 1000000000` s (a date after the year 2106) with random
draws that are always 0. -/
def lateOracle : Oracle :=
  { clock := fun _ => 2 ^ 32 + 1000000000
    entropy := fun _ _ => 0 }

/-- A world in which no service call has been made. -/
def world0 : World := { nTimeCalls := 0, nRandCalls := 0 }

/-- Two sample seed entries. -/
def seedA : SeedSpec6 := { addr := [0,0,0,0,0,0,0,0,0,0,0xff,0xff,10,0,0,1], port := 32767 }
def seedB : SeedSpec6 := { addr := [0,0,0,0,0,0,0,0,0,0,0xff,0xff,10,0,0,2], port := 16383 }

/-- Sample tables: one main seed, two testnet seeds. -/
def demoTables : SeedTables := { pnSeed6_main := [seedA], pnSeed6_test := [seedB, seedA] }

/-- Sample statics, with every field spelled out, for use where no construction is needed. -/
def demoGlobals (ptr : ParamsPtr) : Globals :=
  { mainParams := CMainParams.uninitialised
    testNetParams := { toCMainParams := { CMainParams.uninitialised with strDataDir := "testnet" } }
    regTestParams :=
      { toCTestNetParams :=
          { toCMainParams := { CMainParams.uninitialised with strDataDir := "regtest" } } }
    pCurrentParams := ptr }

/-! ## Sequences of selection calls -/

/-- One call of a selection function; a command-line selection carries the argument
lookup in force when it is made. -/
inductive Call where
  | selectParams (network : Network)
  | selectParamsFromCommandLine (GetBoolArg : String → Bool → Bool)

/-- Statics after one call; `none` when the call aborts on the `SelectParams` assertion. -/
def Call.run : Call → Globals → Option Globals
  | .selectParams network, g => SelectParams network g
  | .selectParamsFromCommandLine GetBoolArg, g =>
    (SelectParamsFromCommandLine GetBoolArg g).map Prod.snd

/-- Statics after a finite sequence of calls made one after the other. -/
def runCalls : List Call → Globals → Option Globals
  | [], g => some g
  | c :: cs, g => (c.run g).bind (runCalls cs)

/-- Specification side: the network a call selects when it is a successful selection;
a command-line call with both flags set selects nothing. -/
def Call.selection : Call → Option Network
  | .selectParams network => some network
  | .selectParamsFromCommandLine GetBoolArg =>
    if GetBoolArg "-regtest" false && GetBoolArg "-testnet" false then none
    else if GetBoolArg "-regtest" false then some Network.REGTEST
    else if GetBoolArg "-testnet" false then some Network.TESTNET
    else some Network.MAIN

/-- Specification side: the network chosen by the most recent successful selection of a
call sequence, `fallback` when there was none. -/
def mostRecentSelection (fallback : Network) (calls : List Call) : Network :=
  ((calls.filterMap Call.selection).getLast?).getD fallback

/-- A sample call sequence: select Testnet, reject a double request, select Regtest from
the command line, then select Main and Testnet again. -/
def demoCalls : List Call :=
  [ Call.selectParams Network.TESTNET,
    Call.selectParamsFromCommandLine (fun _ _ => true),
    Call.selectParamsFromCommandLine (fun key _ => key == "-regtest"),
    Call.selectParams Network.MAIN,
    Call.selectParamsFromCommandLine (fun key _ => key == "-testnet") ]


end ChainParams

/-! URI parsing of the GUI helpers (`src/qt/guiutil.cpp`): the two overloads of
`GUIUtil::parseBitcoinURI`.  Qt strings are lists of characters; the URL parser of Qt and
`BitcoinUnits::parse` are parameters. -/

namespace GUIUtil

/-- Qt string. -/
abbrev QString := List Char

/-- A string literal as a `QString`. -/
def qs (s : String) : QString := s.toList

/-- Qt `QString::startsWith(s)` (case sensitive). -/
def startsWith (str s : QString) : Bool := s.isPrefixOf str

/-- Qt `QString::remove(position, n)`: removes `n` characters starting at `position`. -/
def remove (str : QString) (position n : Nat) : QString :=
  str.take position ++ str.drop (position + n)

/-- Qt `QString::replace(position, n, after)`: replaces the `n` characters starting at
`position` with `after`. -/
def replace (str : QString) (position n : Nat) (after : QString) : QString :=
  str.take position ++ after ++ str.drop (position + n)

/-- Qt `QString::isEmpty()`. -/
def isEmpty (str : QString) : Bool := str.isEmpty

/-- The parts of a `QUrl` that `parseBitcoinURI` reads: `scheme()`, `path()`,
`queryItems()`. -/
structure QUrl where
  scheme : QString
  path : QString
  queryItems : List (QString × QString)
deriving DecidableEq, Repr

/-- The members of `SendCoinsRecipient` that `parseBitcoinURI` assigns. -/
structure SendCoinsRecipient where
  address : QString
  label : QString
  amount : Int
deriving DecidableEq, Repr

/-- Body of the `for` loop of `parseBitcoinURI` for the item `i`, acting on the local
`rv`; `none` is `return false`.  `parse value` is the outcome of
`BitcoinUnits::parse(BitcoinUnits::BTC, value, &rv.amount)`: `some v` when it returns
`true` having stored `v`, `none` when it returns `false`. -/
def parseBitcoinURI.loopBody (parse : QString → Option Int) (i : QString × QString)
    (rv : SendCoinsRecipient) : Option SendCoinsRecipient :=
  let fShouldReturnFalse := false
  let (first, fShouldReturnFalse) :=
    if startsWith i.1 (qs "req-") then (remove i.1 0 4, true) else (i.1, fShouldReturnFalse)
  if first = qs "label" then
    let rv := { rv with label := i.2 }
    let fShouldReturnFalse := false
    if fShouldReturnFalse then none else some rv
  else if first = qs "amount" then
    if !isEmpty i.2 then
      match parse i.2 with
      | none => none
      | some v =>
        let rv := { rv with amount := v }
        let fShouldReturnFalse := false
        if fShouldReturnFalse then none else some rv
    else
      let fShouldReturnFalse := false
      if fShouldReturnFalse then none else some rv
  else
    if fShouldReturnFalse then none else some rv

/-- The `for` loop of `parseBitcoinURI` over the query items; `none` is `return false`. -/
def parseBitcoinURI.loop (parse : QString → Option Int) :
    List (QString × QString) → SendCoinsRecipient → Option SendCoinsRecipient
  | [], rv => some rv
  | i :: items, rv =>
    match parseBitcoinURI.loopBody parse i rv with
    | none => none
    | some rv1 => parseBitcoinURI.loop parse items rv1

/-- Overload `parseBitcoinURI(const QUrl &uri, SendCoinsRecipient *out)`.  The pointer
`out` is `none` when null and `some r` when it points to `r`; the result pairs the returned
`bool` with what `out` points to afterwards. -/
def parseBitcoinURI (parse : QString → Option Int) (uri : QUrl)
    (out : Option SendCoinsRecipient) : Bool × Option SendCoinsRecipient :=
  if uri.scheme ≠ qs "bioscrypto" then
    (false, out)
  else
    let rv : SendCoinsRecipient := { address := [], label := [], amount := 0 }
    let rv := { rv with address := uri.path }
    let rv := { rv with amount := 0 }
    let items := uri.queryItems
    match parseBitcoinURI.loop parse items rv with
    | none => (false, out)
    | some rv =>
      match out with
      | some _ => (true, some rv)
      | none => (true, none)

/-- The local `uri` of the string overload after its `if` statement, that is the string
from which the `QUrl` is built. -/
def parseBitcoinURI.convertedUri (uri : QString) : QString :=
  if startsWith uri (qs "bioscrypto://") then
    replace uri 0 12 (qs "bioscrypto:")
  else uri

/-- Overload `parseBitcoinURI(QString uri, SendCoinsRecipient *out)`; `mkQUrl` is the
constructor `QUrl(uri)` of Qt. -/
def parseBitcoinURI_QString (mkQUrl : QString → QUrl) (parse : QString → Option Int)
    (uri : QString) (out : Option SendCoinsRecipient) : Bool × Option SendCoinsRecipient :=
  let uriInstance := mkQUrl (parseBitcoinURI.convertedUri uri)
  parseBitcoinURI parse uriInstance out

/-! ### Specification side -/

/-- Key of an item after `"req-"` has been removed once from its front, if present. -/
def keyWithoutReq (key : QString) : QString :=
  if startsWith key (qs "req-") then remove key 0 4 else key

/-- An item that makes the parse fail: a `req-` key whose remainder is neither `label` nor
`amount`, or an `amount` key with a non-empty value that `parse` rejects. -/
def rejected (parse : QString → Option Int) (i : QString × QString) : Prop :=
  (startsWith i.1 (qs "req-") = true ∧ keyWithoutReq i.1 ≠ qs "label" ∧
    keyWithoutReq i.1 ≠ qs "amount") ∨
  (keyWithoutReq i.1 = qs "amount" ∧ i.2 ≠ [] ∧ parse i.2 = none)

instance (parse : QString → Option Int) (i : QString × QString) :
    Decidable (rejected parse i) := by
  unfold rejected
  infer_instance

/-- An item with any other key: no `req-` at the front, and neither `label` nor `amount`. -/
def otherKey (i : QString × QString) : Prop :=
  startsWith i.1 (qs "req-") = false ∧ i.1 ≠ qs "label" ∧ i.1 ≠ qs "amount"

instance (i : QString × QString) : Decidable (otherKey i) := by
  unfold otherKey
  infer_instance

/-- Value of the last label item, empty if there is none. -/
def lastLabel (items : List (QString × QString)) : QString :=
  (((items.filter (fun i => keyWithoutReq i.1 = qs "label")).getLast?).map Prod.snd).getD []

/-- The last successfully parsed non-empty amount, 0 if there is none. -/
def lastAmount (parse : QString → Option Int) (items : List (QString × QString)) : Int :=
  ((items.filterMap (fun i =>
      if keyWithoutReq i.1 = qs "amount" ∧ i.2 ≠ [] then parse i.2 else none)).getLast?).getD 0

/-! ### Sample inputs -/

/-- A sample amount parser: whole numbers of coins written in decimal digits, in units of
`10^8`; anything else is rejected. -/
def demoParse (value : QString) : Option Int :=
  if value ≠ [] ∧ value.all Char.isDigit then
    some ((value.foldl (fun n c => 10 * n + (c.toNat - 48)) 0 : Nat) * 100000000)
  else none

/-- A sample URL parser that only splits the scheme from the rest. -/
def demoMkQUrl (uri : QString) : QUrl :=
  { scheme := uri.takeWhile (fun c => c != ':')
    path := (uri.dropWhile (fun c => c != ':')).drop 1
    queryItems := [] }

/-- A sample URL with a label, a required amount and an unknown optional key. -/
def demoUrl : QUrl :=
  { scheme := qs "bioscrypto"
    path := qs "BJ7xSampleAddress"
    queryItems := [(qs "label", qs "shop"), (qs "req-amount", qs "12"),
      (qs "message", qs "hi"), (qs "label", qs "till 3")] }

/-- A sample recipient that `out` points to before the call. -/
def demoRecipient : SendCoinsRecipient :=
  { address := qs "old", label := qs "old label", amount := 7 }

end GUIUtil


namespace ChainParams

/-! ## Lemmas on `convertSeed6` -/

theorem seedRecords_length (O : Oracle) (w : World) (es : List SeedSpec6) :
    (seedRecords O w es).length = es.length := by
  induction es generalizing w with
  | nil => rfl
  | cons e es ih => simp [seedRecords, ih]

theorem seedRecords_endpoints (O : Oracle) (w : World) (es : List SeedSpec6) :
    (seedRecords O w es).map (fun a => (a.ip, a.port)) = es.map (fun e => (e.addr, e.port)) := by
  induction es generalizing w with
  | nil => rfl
  | cons e es ih => simp [seedRecords, seedRecord, ih]

theorem seedRecords_getElem? (O : Oracle) (w : World) (es : List SeedSpec6) (j : Nat) :
    (seedRecords O w es)[j]? = (es[j]?).map (seedRecord O w j) := by
  induction es generalizing w j with
  | nil => simp [seedRecords]
  | cons e es ih =>
    cases j with
    | zero => simp [seedRecords]
    | succ j =>
      simp only [seedRecords, List.getElem?_cons_succ, ih]
      cases es[j]? with
      | none => rfl
      | some x =>
        simp [seedRecord, World.advance, Nat.add_assoc, Nat.add_comm 1 j]

theorem convertSeed6Loop_eq (O : Oracle) (data : List SeedSpec6) (k i : Nat)
    (v : List CAddress) (w : World) (h : i + k ≤ data.length) :
    convertSeed6Loop O data k i v w
      = some (v ++ seedRecords O w ((data.drop i).take k), w.advance k) := by
  induction k generalizing i v w with
  | zero => simp [convertSeed6Loop, seedRecords, World.advance]
  | succ k ih =>
    have hi : i < data.length := by omega
    have hd : (data.drop i).take (k + 1) = data[i] :: (data.drop (i + 1)).take k := by
      rw [List.drop_eq_getElem_cons hi, List.take_succ_cons]
    rw [convertSeed6Loop, List.getElem?_eq_getElem hi]
    simp only [GetTime, GetRand]
    rw [ih (i + 1) _ _ (by omega), hd]
    simp [seedRecords, seedRecord, World.advance, Nat.add_assoc, Nat.add_comm 1 k]

theorem convertSeed6_eq (O : Oracle) (v : List CAddress) (data : List SeedSpec6) (w : World) :
    convertSeed6 O v data (ARRAYLEN data) w
      = some (v ++ seedRecords O w data, w.advance data.length) := by
  unfold convertSeed6 ARRAYLEN
  rw [convertSeed6Loop_eq O data data.length 0 v w (by omega)]
  simp

/-! ## Inversion of the constructors -/

theorem assertion_bind_eq_some {α : Type} (c : Bool) (f : Unit → Option α) (r : α) :
    ((assertion c).bind f = some r) ↔ (c = true ∧ f () = some r) := by
  cases c <;> simp [assertion]

theorem CMainParams_inv (S : Services) (O : Oracle) (T : SeedTables) (w w' : World)
    (p : CMainParams) (h : CMainParams.CMainParams S O T w = some (p, w')) :
    w' = w.advance T.pnSeed6_main.length ∧
    p.pchMessageStart = [0x0a, 0xbc, 0x10, 0x5f] ∧
    p.nDefaultPort = 32767 ∧ p.nRPCPort = 32768 ∧
    p.bnProofOfWorkLimit = uint256MaxShr 20 ∧ p.bnProofOfStakeLimit = uint256MaxShr 20 ∧
    p.strDataDir = "" ∧ p.vSeeds = [] ∧
    p.vFixedSeeds = seedRecords O w T.pnSeed6_main ∧
    p.nTargetSpacing = 60 ∧ p.nTargetTimespan = 600 ∧
    p.nLastPoWBlock = 3100 ∧ p.nStartPoSBlock = 2800 ∧
    p.genesis.nTime = 1437591600 ∧ p.genesis.nNonce = 1061886 ∧
    p.genesis.nBits = S.GetCompact (uint256MaxShr 20) ∧
    p.hashGenesisBlock = S.GetHash p.genesis ∧
    p.hashGenesisBlock = 0x000001815b44ae9b4b5a9f22ef95d5badc10e3b38503aee9b7e84f5ce2bf8efa ∧
    p.genesis.hashMerkleRoot = 0x90ac10dbdb97f5be41866194f4bc5f63a72ff47f13ba75513eaf77dfa8d6aeb3 ∧
    p.base58Prefixes =
      { PUBKEY_ADDRESS := [86], SCRIPT_ADDRESS := [85], SECRET_KEY := [214],
        EXT_PUBLIC_KEY := [0x04, 0x88, 0xB2, 0x1E], EXT_SECRET_KEY := [0x04, 0x88, 0xAD, 0xE4] } := by
  simp only [CMainParams.CMainParams, convertSeed6_eq, bind, pure] at h
  rw [assertion_bind_eq_some] at h
  obtain ⟨h1, h⟩ := h
  rw [assertion_bind_eq_some] at h
  obtain ⟨h2, h⟩ := h
  simp only [Option.some_bind, Option.some.injEq, Prod.mk.injEq] at h
  obtain ⟨hp, hw⟩ := h
  simp only [decide_eq_true_eq] at h1 h2
  subst hp hw
  refine ⟨rfl, ?_, rfl, rfl, rfl, rfl, rfl, rfl, ?_, rfl, ?_, rfl, rfl, rfl, rfl, rfl, rfl, h1, h2, rfl⟩
  · rfl
  · rfl
  · rfl


theorem CTestNetParams_inv (S : Services) (O : Oracle) (T : SeedTables) (w w' : World)
    (p : CTestNetParams) (h : CTestNetParams.CTestNetParams S O T w = some (p, w')) :
    w' = (w.advance T.pnSeed6_main.length).advance T.pnSeed6_test.length ∧
    p.pchMessageStart = [0x0a, 0xbc, 0x10, 0x60] ∧
    p.nDefaultPort = 16383 ∧ p.nRPCPort = 16384 ∧
    p.bnProofOfWorkLimit = uint256MaxShr 16 ∧ p.bnProofOfStakeLimit = uint256MaxShr 16 ∧
    p.strDataDir = "testnet" ∧ p.vSeeds = [] ∧
    p.vFixedSeeds = seedRecords O (w.advance T.pnSeed6_main.length) T.pnSeed6_test ∧
    p.nTargetSpacing = 30 ∧ p.nTargetTimespan = 600 ∧
    p.nLastPoWBlock = 0x7fffffff ∧ p.nStartPoSBlock = 2800 ∧
    p.genesis.nTime = 1437591600 ∧ p.genesis.nNonce = 344459 ∧
    p.genesis.nBits = S.GetCompact (uint256MaxShr 16) ∧
    p.hashGenesisBlock = S.GetHash p.genesis ∧
    p.hashGenesisBlock = 0x0000cef54c3c42240e2a4859db2020ac2afc2017832058d3599ba972db05cb77 ∧
    p.genesis.hashMerkleRoot = 0x90ac10dbdb97f5be41866194f4bc5f63a72ff47f13ba75513eaf77dfa8d6aeb3 ∧
    p.base58Prefixes =
      { PUBKEY_ADDRESS := [118], SCRIPT_ADDRESS := [196], SECRET_KEY := [246],
        EXT_PUBLIC_KEY := [0x04, 0x35, 0x87, 0xCF], EXT_SECRET_KEY := [0x04, 0x35, 0x83, 0x94] } := by
  simp only [CTestNetParams.CTestNetParams, convertSeed6_eq, bind, pure] at h
  rw [Option.bind_eq_some] at h
  obtain ⟨⟨b, w0⟩, hb, h⟩ := h
  have hm := CMainParams_inv S O T w w0 b hb
  obtain ⟨m0, m1, -, -, -, -, -, -, -, -, m10, -, -, m13, -, -, -, -, m18, -⟩ := hm
  simp only at h
  rw [assertion_bind_eq_some] at h
  obtain ⟨h1, h⟩ := h
  simp only [Option.some_bind, Option.some.injEq, Prod.mk.injEq] at h
  obtain ⟨hp, hw⟩ := h
  simp only [decide_eq_true_eq] at h1
  subst hp hw m0
  refine ⟨rfl, ?_, rfl, rfl, rfl, rfl, rfl, rfl, rfl, rfl, m10, rfl, rfl, m13, rfl, rfl, rfl, h1, m18, rfl⟩
  simp [m1]

theorem CRegTestParams_inv (S : Services) (O : Oracle) (T : SeedTables) (w w' : World)
    (p : CRegTestParams) (h : CRegTestParams.CRegTestParams S O T w = some (p, w')) :
    w' = (w.advance T.pnSeed6_main.length).advance T.pnSeed6_test.length ∧
    p.pchMessageStart = [0x0a, 0xbc, 0x10, 0xfe] ∧
    p.nDefaultPort = 26244 ∧ p.nRPCPort = 16384 ∧
    p.bnProofOfWorkLimit = uint256MaxShr 1 ∧ p.bnProofOfStakeLimit = uint256MaxShr 16 ∧
    p.strDataDir = "regtest" ∧ p.vSeeds = [] ∧
    p.vFixedSeeds = seedRecords O (w.advance T.pnSeed6_main.length) T.pnSeed6_test ∧
    p.nTargetSpacing = 30 ∧ p.nTargetTimespan = 600 ∧
    p.nLastPoWBlock = 0x7fffffff ∧ p.nStartPoSBlock = 2800 ∧
    p.genesis.nTime = 1435708800 ∧ p.genesis.nNonce = 8 ∧
    p.genesis.nBits = S.GetCompact (uint256MaxShr 1) ∧
    p.hashGenesisBlock = S.GetHash p.genesis ∧
    p.hashGenesisBlock = 0x2fec6cc4a488fdcd250657555c69634070989874de455aa0ceeebc2494a49860 ∧
    p.genesis.hashMerkleRoot = 0x90ac10dbdb97f5be41866194f4bc5f63a72ff47f13ba75513eaf77dfa8d6aeb3 ∧
    p.base58Prefixes =
      { PUBKEY_ADDRESS := [118], SCRIPT_ADDRESS := [196], SECRET_KEY := [246],
        EXT_PUBLIC_KEY := [0x04, 0x35, 0x87, 0xCF], EXT_SECRET_KEY := [0x04, 0x35, 0x83, 0x94] } := by
  simp only [CRegTestParams.CRegTestParams, bind, pure] at h
  rw [Option.bind_eq_some] at h
  obtain ⟨⟨b, w0⟩, hb, h⟩ := h
  have ht := CTestNetParams_inv S O T w w0 b hb
  obtain ⟨t0, t1, -, t3, -, t5, -, -, t8, t9, t10, t11, t12, -, -, -, -, -, t18, t19⟩ := ht
  simp only at h
  rw [assertion_bind_eq_some] at h
  obtain ⟨h1, h⟩ := h
  simp only [Option.some.injEq, Prod.mk.injEq] at h
  obtain ⟨hp, hw⟩ := h
  simp only [decide_eq_true_eq] at h1
  subst hp hw
  refine ⟨t0, ?_, rfl, t3, rfl, t5, rfl, rfl, t8, t9, t10, t11, t12, rfl, rfl, rfl, rfl, h1,
    t18, t19⟩
  simp [t1]

theorem staticInit_inv (S : Services) (O : Oracle) (T : SeedTables) (w w' : World)
    (g : Globals) (h : staticInit S O T w = some (g, w')) :
    ∃ w1 w2,
      CMainParams.CMainParams S O T w = some (g.mainParams, w1) ∧
      CTestNetParams.CTestNetParams S O T w1 = some (g.testNetParams, w2) ∧
      CRegTestParams.CRegTestParams S O T w2 = some (g.regTestParams, w') ∧
      g.pCurrentParams = ParamsPtr.mainParams := by
  simp only [staticInit, bind, pure] at h
  rw [Option.bind_eq_some] at h
  obtain ⟨⟨m, w1⟩, hm, h⟩ := h
  simp only at h
  rw [Option.bind_eq_some] at h
  obtain ⟨⟨t, w2⟩, ht, h⟩ := h
  simp only at h
  rw [Option.bind_eq_some] at h
  obtain ⟨⟨r, w3⟩, hr, h⟩ := h
  simp only [Option.some.injEq, Prod.mk.injEq] at h
  obtain ⟨hg, hw⟩ := h
  subst hg hw
  exact ⟨w1, w2, hm, ht, hr, rfl⟩

/-! ## Selection -/

/-- The default branch of `SelectParams` is reachable in the embedding: a value outside
the three handled ones aborts. -/
theorem SelectParams_unimplemented (raw : Nat) (g : Globals) :
    SelectParams (Network.unimplemented raw) g = none := rfl

/-- C1: when both `-regtest` and `-testnet` are requested, `SelectParamsFromCommandLine`
returns `false` and leaves the statics (in particular `pCurrentParams`, whatever network
it designated before) exactly as they were. -/
theorem C1_both_flags_rejected (GetBoolArg : String → Bool → Bool) (g : Globals)
    (hRegTest : GetBoolArg "-regtest" false = true)
    (hTestNet : GetBoolArg "-testnet" false = true) :
    SelectParamsFromCommandLine GetBoolArg g = some (false, g) ∧
    ∀ r g1, SelectParamsFromCommandLine GetBoolArg g = some (r, g1) →
      r = false ∧ Params g1 = Params g ∧ (Params g1).NetworkID = (Params g).NetworkID := by
  have h : SelectParamsFromCommandLine GetBoolArg g = some (false, g) := by
    simp [SelectParamsFromCommandLine, hRegTest, hTestNet]
  refine ⟨h, ?_⟩
  intro r g1 h1
  rw [h] at h1
  simp only [Option.some.injEq, Prod.mk.injEq] at h1
  obtain ⟨hr, hg⟩ := h1
  subst hr hg
  exact ⟨rfl, rfl, rfl⟩

/-- Witness of C1: every lookup answers `true`, the active network before the call is
Testnet. -/
theorem C1_both_flags_rejected_witness :
    SelectParamsFromCommandLine (fun _ _ => true) (demoGlobals ParamsPtr.testNetParams)
        = some (false, demoGlobals ParamsPtr.testNetParams) ∧
    ∀ r g1, SelectParamsFromCommandLine (fun _ _ => true) (demoGlobals ParamsPtr.testNetParams)
        = some (r, g1) →
      r = false ∧ Params g1 = Params (demoGlobals ParamsPtr.testNetParams) ∧
        (Params g1).NetworkID = (Params (demoGlobals ParamsPtr.testNetParams)).NetworkID :=
  C1_both_flags_rejected (fun _ _ => true) (demoGlobals ParamsPtr.testNetParams) rfl rfl

/-- C2: from any prior statics, `SelectParamsFromCommandLine` returns `true` and makes
`Params()` the Main set when neither flag is set, the Testnet set when only `-testnet` is
set, the Regtest set when only `-regtest` is set; `Params().NetworkID()` is then `MAIN`,
`TESTNET`, `REGTEST` respectively. -/
theorem C2_flags_select_network (GetBoolArg : String → Bool → Bool) (g : Globals) :
    (GetBoolArg "-regtest" false = false → GetBoolArg "-testnet" false = false →
      ∃ g1, SelectParamsFromCommandLine GetBoolArg g = some (true, g1) ∧
        Params g1 = CChainParamsRef.ofMain g.mainParams ∧
        (Params g1).NetworkID = Network.MAIN) ∧
    (GetBoolArg "-regtest" false = false → GetBoolArg "-testnet" false = true →
      ∃ g1, SelectParamsFromCommandLine GetBoolArg g = some (true, g1) ∧
        Params g1 = CChainParamsRef.ofTestNet g.testNetParams ∧
        (Params g1).NetworkID = Network.TESTNET) ∧
    (GetBoolArg "-regtest" false = true → GetBoolArg "-testnet" false = false →
      ∃ g1, SelectParamsFromCommandLine GetBoolArg g = some (true, g1) ∧
        Params g1 = CChainParamsRef.ofRegTest g.regTestParams ∧
        (Params g1).NetworkID = Network.REGTEST) := by
  refine ⟨?_, ?_, ?_⟩
  · intro hr ht
    exact ⟨{ g with pCurrentParams := ParamsPtr.mainParams },
      by simp [SelectParamsFromCommandLine, SelectParams, hr, ht], rfl, rfl⟩
  · intro hr ht
    exact ⟨{ g with pCurrentParams := ParamsPtr.testNetParams },
      by simp [SelectParamsFromCommandLine, SelectParams, hr, ht], rfl, rfl⟩
  · intro hr ht
    exact ⟨{ g with pCurrentParams := ParamsPtr.regTestParams },
      by simp [SelectParamsFromCommandLine, SelectParams, hr, ht], rfl, rfl⟩

/-- Witness of C2: the three flag combinations, each from a different prior network. -/
theorem C2_flags_select_network_witness :
    (∃ g1, SelectParamsFromCommandLine (fun _ _ => false) (demoGlobals ParamsPtr.regTestParams)
        = some (true, g1) ∧
      Params g1 = CChainParamsRef.ofMain (demoGlobals ParamsPtr.regTestParams).mainParams ∧
      (Params g1).NetworkID = Network.MAIN) ∧
    (∃ g1, SelectParamsFromCommandLine (fun key _ => key == "-testnet")
        (demoGlobals ParamsPtr.mainParams) = some (true, g1) ∧
      Params g1 = CChainParamsRef.ofTestNet (demoGlobals ParamsPtr.mainParams).testNetParams ∧
      (Params g1).NetworkID = Network.TESTNET) ∧
    (∃ g1, SelectParamsFromCommandLine (fun key _ => key == "-regtest")
        (demoGlobals ParamsPtr.testNetParams) = some (true, g1) ∧
      Params g1 = CChainParamsRef.ofRegTest (demoGlobals ParamsPtr.testNetParams).regTestParams ∧
      (Params g1).NetworkID = Network.REGTEST) :=
  ⟨(C2_flags_select_network (fun _ _ => false) (demoGlobals ParamsPtr.regTestParams)).1 rfl rfl,
   (C2_flags_select_network (fun key _ => key == "-testnet")
      (demoGlobals ParamsPtr.mainParams)).2.1 (by decide) (by decide),
   (C2_flags_select_network (fun key _ => key == "-regtest")
      (demoGlobals ParamsPtr.testNetParams)).2.2 (by decide) (by decide)⟩

/-- C3: for each of the three networks `SelectParams` does not reach the
`assert(false && "Unimplemented network")` branch, `Params()` afterwards is that
network's parameter set, and the three parameter objects are the same after the call as
before it. -/
theorem C3_SelectParams_total_frame (network : Network) (g : Globals)
    (hn : network = Network.MAIN ∨ network = Network.TESTNET ∨ network = Network.REGTEST) :
    ∃ g1, SelectParams network g = some g1 ∧
      (Params g1).NetworkID = network ∧
      (network = Network.MAIN → Params g1 = CChainParamsRef.ofMain g.mainParams) ∧
      (network = Network.TESTNET → Params g1 = CChainParamsRef.ofTestNet g.testNetParams) ∧
      (network = Network.REGTEST → Params g1 = CChainParamsRef.ofRegTest g.regTestParams) ∧
      g1.mainParams = g.mainParams ∧
      g1.testNetParams = g.testNetParams ∧
      g1.regTestParams = g.regTestParams := by
  rcases hn with h | h | h <;> subst h
  · exact ⟨{ g with pCurrentParams := ParamsPtr.mainParams }, rfl, rfl,
      fun _ => rfl, fun h => (by cases h), fun h => (by cases h), rfl, rfl, rfl⟩
  · exact ⟨{ g with pCurrentParams := ParamsPtr.testNetParams }, rfl, rfl,
      fun h => (by cases h), fun _ => rfl, fun h => (by cases h), rfl, rfl, rfl⟩
  · exact ⟨{ g with pCurrentParams := ParamsPtr.regTestParams }, rfl, rfl,
      fun h => (by cases h), fun h => (by cases h), fun _ => rfl, rfl, rfl, rfl⟩

/-- Witness of C3: selecting Regtest while Main is active. -/
theorem C3_SelectParams_total_frame_witness :
    ∃ g1, SelectParams Network.REGTEST (demoGlobals ParamsPtr.mainParams) = some g1 ∧
      (Params g1).NetworkID = Network.REGTEST ∧
      (Network.REGTEST = Network.MAIN →
        Params g1 = CChainParamsRef.ofMain (demoGlobals ParamsPtr.mainParams).mainParams) ∧
      (Network.REGTEST = Network.TESTNET →
        Params g1 = CChainParamsRef.ofTestNet (demoGlobals ParamsPtr.mainParams).testNetParams) ∧
      (Network.REGTEST = Network.REGTEST →
        Params g1 = CChainParamsRef.ofRegTest (demoGlobals ParamsPtr.mainParams).regTestParams) ∧
      g1.mainParams = (demoGlobals ParamsPtr.mainParams).mainParams ∧
      g1.testNetParams = (demoGlobals ParamsPtr.mainParams).testNetParams ∧
      g1.regTestParams = (demoGlobals ParamsPtr.mainParams).regTestParams :=
  C3_SelectParams_total_frame Network.REGTEST (demoGlobals ParamsPtr.mainParams)
    (Or.inr (Or.inr rfl))

/-! ## Seed conversion -/

/-- The sample services, clock and tables pass every constructor assertion. -/
theorem demo_staticInit_some :
    ∃ r, staticInit demoServices demoOracle demoTables world0 = some r :=
  Option.isSome_iff_exists.mp (by decide)

/-- The sample random source stays below its argument. -/
theorem demoOracle_entropy_lt (k n : Nat) (hn : 0 < n) : demoOracle.entropy k n < n :=
  Nat.mod_lt k hn

/-- C6: on a table of `N` entries and an empty output vector, `convertSeed6` returns
(does not read out of bounds) with exactly `N` records, the `i`-th record carrying the
address bytes and the port of the `i`-th raw entry; on the empty table the output is
empty. -/
theorem C6_convertSeed6_one_record_per_entry (O : Oracle) (data : List SeedSpec6) (w : World) :
    (∃ out w1, convertSeed6 O [] data (ARRAYLEN data) w = some (out, w1) ∧
      out.length = data.length ∧
      out.map (fun a => (a.ip, a.port)) = data.map (fun e => (e.addr, e.port)) ∧
      ∀ i : Nat, (out[i]?).map (fun a : CAddress => (a.ip, a.port))
        = (data[i]?).map (fun e : SeedSpec6 => (e.addr, e.port))) ∧
    convertSeed6 O [] [] (ARRAYLEN []) w = some ([], w) := by
  refine ⟨⟨seedRecords O w data, w.advance data.length, ?_, seedRecords_length O w data,
    seedRecords_endpoints O w data, ?_⟩, rfl⟩
  · simpa using convertSeed6_eq O [] data w
  · intro i
    rw [seedRecords_getElem?]
    cases data[i]? with
    | none => rfl
    | some e => rfl

/-- The stored last-seen time is the integer `now - rnd - nOneWeek` reduced modulo
`2^32`. -/
theorem lastSeenTime_eq_emod (now : Int) (rnd : Nat) :
    (lastSeenTime now rnd : Int) = (now - (rnd : Int) - 604800) % 4294967296 := by
  have hw : (nOneWeek : Int) = 604800 := by decide
  have h64 : (2 : Int) ^ 64 = 18446744073709551616 := by norm_num
  have h32 : (2 : Int) ^ 32 = 4294967296 := by norm_num
  unfold lastSeenTime
  simp only [hw, h64, h32]
  rw [Int.toNat_of_nonneg (Int.emod_nonneg _ (by norm_num))]
  omega

/-- When `now - rnd - nOneWeek` fits the 32-bit field it is stored unchanged. -/
theorem lastSeenTime_of_fits (now : Int) (rnd : Nat)
    (hlo : 0 ≤ now - (rnd : Int) - 604800) (hhi : now - (rnd : Int) - 604800 < 4294967296) :
    (lastSeenTime now rnd : Int) = now - (rnd : Int) - 604800 := by
  rw [lastSeenTime_eq_emod]
  omega

/-- Every reading of the sample clock lies in the range in which the last-seen time fits
its field. -/
theorem demoOracle_clock_fits (k : Nat) :
    1209599 ≤ demoOracle.clock k ∧ demoOracle.clock k < 2 ^ 32 + 604800 := by
  show (1209599 : Int) ≤ 1500000000 ∧ (1500000000 : Int) < 2 ^ 32 + 604800
  constructor <;> norm_num

/-- The two sample oracles with constant draws satisfy `GetRand(n) < n` for `0 < n`. -/
theorem epochOracle_entropy_lt (k n : Nat) (hn : 0 < n) : epochOracle.entropy k n < n := hn

theorem lateOracle_entropy_lt (k n : Nat) (hn : 0 < n) : lateOracle.entropy k n < n := hn

/-- C7 fails as stated: with the clock at 0 the record gets `nTime = 4294362496`
(`2^32 - 604800`), which is above `now - 604800`; with the clock at `2^32 + 1000000000`
it gets `nTime = 999395200`, which is below `now - 1209600`.  Both random sources satisfy
`GetRand(n) < n`. -/
theorem C7_counterexample :
    (∃ out w1, convertSeed6 epochOracle [] [seedA] (ARRAYLEN [seedA]) world0 = some (out, w1) ∧
      out.map CAddress.nTime = [4294362496] ∧
      ¬ (∀ (i : Nat) (a : CAddress), out[i]? = some a →
          epochOracle.clock (world0.nTimeCalls + i) - 1209600 ≤ (a.nTime : Int) ∧
          (a.nTime : Int) ≤ epochOracle.clock (world0.nTimeCalls + i) - 604800)) ∧
    (∃ out w1, convertSeed6 lateOracle [] [seedA] (ARRAYLEN [seedA]) world0 = some (out, w1) ∧
      out.map CAddress.nTime = [999395200] ∧
      ¬ (∀ (i : Nat) (a : CAddress), out[i]? = some a →
          lateOracle.clock (world0.nTimeCalls + i) - 1209600 ≤ (a.nTime : Int) ∧
          (a.nTime : Int) ≤ lateOracle.clock (world0.nTimeCalls + i) - 604800)) := by
  refine ⟨⟨[{ ip := seedA.addr, port := seedA.port, nTime := 4294362496 }],
      world0.advance 1, by decide, by decide, ?_⟩,
    ⟨[{ ip := seedA.addr, port := seedA.port, nTime := 999395200 }],
      world0.advance 1, by decide, by decide, ?_⟩⟩
  · intro hall
    have h0 := hall 0 _ rfl
    simp [epochOracle, world0] at h0
  · intro hall
    have h0 := hall 0 _ rfl
    simp [lateOracle, world0] at h0

/-- C7, amended: if the random source satisfies `GetRand(n) < n` for `0 < n` and every
clock reading `now` satisfies `1209599 ≤ now < 2^32 + 604800` (so that `now` minus any
duration below two weeks fits the unsigned 32-bit field `nTime`), every record that
`convertSeed6` produces has `nTime = now - d`, where `now` is the clock reading taken for
that record and `604800 ≤ d ≤ 1209600`; hence `now - 1209600 ≤ nTime ≤ now - 604800`. -/
theorem C7_convertSeed6_last_seen_window (O : Oracle) (data : List SeedSpec6) (w : World)
    (hRand : ∀ k n, 0 < n → O.entropy k n < n)
    (hClock : ∀ k, 1209599 ≤ O.clock k ∧ O.clock k < 2 ^ 32 + 604800) :
    ∃ out w1, convertSeed6 O [] data (ARRAYLEN data) w = some (out, w1) ∧
      out.length = data.length ∧
      ∀ (i : Nat) (a : CAddress), out[i]? = some a →
        (∃ d : Int, 604800 ≤ d ∧ d ≤ 1209600 ∧
          (a.nTime : Int) = O.clock (w.nTimeCalls + i) - d) ∧
        O.clock (w.nTimeCalls + i) - 1209600 ≤ (a.nTime : Int) ∧
        (a.nTime : Int) ≤ O.clock (w.nTimeCalls + i) - 604800 := by
  refine ⟨seedRecords O w data, w.advance data.length, ?_, seedRecords_length O w data, ?_⟩
  · simpa using convertSeed6_eq O [] data w
  · intro i a ha
    rw [seedRecords_getElem?] at ha
    cases hd : data[i]? with
    | none => simp [hd] at ha
    | some e =>
      simp only [hd, Option.map_some', Option.some.injEq] at ha
      subst ha
      have hr : O.entropy (w.nRandCalls + i) nOneWeek < nOneWeek :=
        hRand _ _ (by decide)
      have hw : nOneWeek = 604800 := by decide
      obtain ⟨hlo, hhi⟩ := hClock (w.nTimeCalls + i)
      have h32 : (2 : Int) ^ 32 = 4294967296 := by norm_num
      rw [h32] at hhi
      simp only [seedRecord, hw] at hr ⊢
      have hfit := lastSeenTime_of_fits (O.clock (w.nTimeCalls + i))
        (O.entropy (w.nRandCalls + i) 604800) (by omega) (by omega)
      rw [hfit]
      refine ⟨⟨(O.entropy (w.nRandCalls + i) 604800 : Int) + 604800, ?_, ?_, ?_⟩, ?_, ?_⟩
      all_goals omega

/-- Witness of C7 amended: two sample entries, the sample clock (1 500 000 000 s) and
random source. -/
theorem C7_convertSeed6_last_seen_window_witness :
    ∃ out w1, convertSeed6 demoOracle [] [seedA, seedB] (ARRAYLEN [seedA, seedB]) world0
        = some (out, w1) ∧
      out.length = [seedA, seedB].length ∧
      ∀ (i : Nat) (a : CAddress), out[i]? = some a →
        (∃ d : Int, 604800 ≤ d ∧ d ≤ 1209600 ∧
          (a.nTime : Int) = demoOracle.clock (world0.nTimeCalls + i) - d) ∧
        demoOracle.clock (world0.nTimeCalls + i) - 1209600 ≤ (a.nTime : Int) ∧
        (a.nTime : Int) ≤ demoOracle.clock (world0.nTimeCalls + i) - 604800 :=
  C7_convertSeed6_last_seen_window demoOracle [seedA, seedB] world0 demoOracle_entropy_lt
    demoOracle_clock_fits

/-! ## The constructed parameter sets -/

/-- Fixed-seed lists of the three statics after static initialisation started in world
`w`: Main holds the conversion of the main table; Testnet and Regtest both hold the
conversion of the testnet table made by the `CTestNetParams()` body. -/
theorem staticInit_vFixedSeeds (S : Services) (O : Oracle) (T : SeedTables) (w w1 : World)
    (g : Globals) (h : staticInit S O T w = some (g, w1)) :
    g.mainParams.vFixedSeeds = seedRecords O w T.pnSeed6_main ∧
    g.testNetParams.vFixedSeeds
      = seedRecords O ((w.advance T.pnSeed6_main.length).advance T.pnSeed6_main.length)
          T.pnSeed6_test ∧
    g.regTestParams.vFixedSeeds
      = seedRecords O
          ((((w.advance T.pnSeed6_main.length).advance T.pnSeed6_main.length).advance
            T.pnSeed6_test.length).advance T.pnSeed6_main.length)
          T.pnSeed6_test := by
  obtain ⟨wa, wb, hm, ht, hr, -⟩ := staticInit_inv S O T w w1 g h
  have m := CMainParams_inv S O T w wa g.mainParams hm
  have t := CTestNetParams_inv S O T wa wb g.testNetParams ht
  have r := CRegTestParams_inv S O T wb w1 g.regTestParams hr
  obtain ⟨m0, -, -, -, -, -, -, -, m8, -⟩ := m
  obtain ⟨t0, -, -, -, -, -, -, -, t8, -⟩ := t
  obtain ⟨-, -, -, -, -, -, -, -, r8, -⟩ := r
  subst m0 t0
  exact ⟨m8, t8, r8⟩

/-- C8: `FixedSeeds()` of the constructed Testnet parameter set is exactly what
`convertSeed6` returns for the testnet seed table on an empty vector started in the
world reached after the inherited `CMainParams()` body ran; the records which that body
appended were cleared and are not part of the list: it has as many records as the
testnet table has entries, in table order, whatever the main seed table holds. -/
theorem C8_testnet_fixed_seeds (S : Services) (O : Oracle) (T : SeedTables)
    (w w1 : World) (g : Globals) (h : staticInit S O T w = some (g, w1)) :
    (convertSeed6 O [] T.pnSeed6_test (ARRAYLEN T.pnSeed6_test)
        ((w.advance (ARRAYLEN T.pnSeed6_main)).advance (ARRAYLEN T.pnSeed6_main))).map Prod.fst
      = some (CChainParamsRef.ofTestNet g.testNetParams).FixedSeeds ∧
    (CChainParamsRef.ofTestNet g.testNetParams).FixedSeeds.length = T.pnSeed6_test.length ∧
    (CChainParamsRef.ofTestNet g.testNetParams).FixedSeeds.map
        (fun a : CAddress => (a.ip, a.port))
      = T.pnSeed6_test.map (fun e : SeedSpec6 => (e.addr, e.port)) ∧
    (∀ i : Nat, ((CChainParamsRef.ofTestNet g.testNetParams).FixedSeeds[i]?).map
        (fun a : CAddress => (a.ip, a.port))
      = (T.pnSeed6_test[i]?).map (fun e : SeedSpec6 => (e.addr, e.port))) := by
  obtain ⟨-, ht, -⟩ := staticInit_vFixedSeeds S O T w w1 g h
  simp only [CChainParamsRef.FixedSeeds, CChainParamsRef.members, ht]
  refine ⟨by rw [convertSeed6_eq]; simp [ARRAYLEN],
    seedRecords_length _ _ _, seedRecords_endpoints _ _ _, ?_⟩
  intro i
  rw [seedRecords_getElem?]
  cases T.pnSeed6_test[i]? with
  | none => rfl
  | some e => rfl

/-- Witness of C8: the sample services and tables. -/
theorem C8_testnet_fixed_seeds_witness :
    ∃ g w1, staticInit demoServices demoOracle demoTables world0 = some (g, w1) ∧
      (convertSeed6 demoOracle [] demoTables.pnSeed6_test (ARRAYLEN demoTables.pnSeed6_test)
          ((world0.advance (ARRAYLEN demoTables.pnSeed6_main)).advance
            (ARRAYLEN demoTables.pnSeed6_main))).map Prod.fst
        = some (CChainParamsRef.ofTestNet g.testNetParams).FixedSeeds ∧
      (CChainParamsRef.ofTestNet g.testNetParams).FixedSeeds.length
        = demoTables.pnSeed6_test.length ∧
      (CChainParamsRef.ofTestNet g.testNetParams).FixedSeeds.map
          (fun a : CAddress => (a.ip, a.port))
        = demoTables.pnSeed6_test.map (fun e : SeedSpec6 => (e.addr, e.port)) ∧
      (∀ i : Nat, ((CChainParamsRef.ofTestNet g.testNetParams).FixedSeeds[i]?).map
          (fun a : CAddress => (a.ip, a.port))
        = (demoTables.pnSeed6_test[i]?).map (fun e : SeedSpec6 => (e.addr, e.port))) := by
  obtain ⟨⟨g, w1⟩, h⟩ := demo_staticInit_some
  exact ⟨g, w1, h, C8_testnet_fixed_seeds demoServices demoOracle demoTables world0 w1 g h⟩

/-- C9: the message-start values of the constructed Main, Testnet and Regtest parameter
sets are 4 bytes long and pairwise distinct. -/
theorem C9_message_start_distinct (S : Services) (O : Oracle) (T : SeedTables)
    (w w1 : World) (g : Globals) (h : staticInit S O T w = some (g, w1)) :
    g.mainParams.pchMessageStart.length = 4 ∧
    g.testNetParams.pchMessageStart.length = 4 ∧
    g.regTestParams.pchMessageStart.length = 4 ∧
    g.mainParams.pchMessageStart ≠ g.testNetParams.pchMessageStart ∧
    g.mainParams.pchMessageStart ≠ g.regTestParams.pchMessageStart ∧
    g.testNetParams.pchMessageStart ≠ g.regTestParams.pchMessageStart := by
  obtain ⟨wa, wb, hm, ht, hr, -⟩ := staticInit_inv S O T w w1 g h
  obtain ⟨-, m1, -⟩ := CMainParams_inv S O T w wa g.mainParams hm
  obtain ⟨-, t1, -⟩ := CTestNetParams_inv S O T wa wb g.testNetParams ht
  obtain ⟨-, r1, -⟩ := CRegTestParams_inv S O T wb w1 g.regTestParams hr
  rw [m1, t1, r1]
  decide

/-- Witness of C9: the sample services and tables. -/
theorem C9_message_start_distinct_witness :
    ∃ g w1, staticInit demoServices demoOracle demoTables world0 = some (g, w1) ∧
      g.mainParams.pchMessageStart.length = 4 ∧
      g.testNetParams.pchMessageStart.length = 4 ∧
      g.regTestParams.pchMessageStart.length = 4 ∧
      g.mainParams.pchMessageStart ≠ g.testNetParams.pchMessageStart ∧
      g.mainParams.pchMessageStart ≠ g.regTestParams.pchMessageStart ∧
      g.testNetParams.pchMessageStart ≠ g.regTestParams.pchMessageStart := by
  obtain ⟨⟨g, w1⟩, h⟩ := demo_staticInit_some
  exact ⟨g, w1, h, C9_message_start_distinct demoServices demoOracle demoTables world0 w1 g h⟩

/-- Default ports of the three statics after static initialisation. -/
theorem staticInit_ports (S : Services) (O : Oracle) (T : SeedTables) (w w1 : World)
    (g : Globals) (h : staticInit S O T w = some (g, w1)) :
    (g.mainParams.nDefaultPort = 32767 ∧ g.mainParams.nRPCPort = 32768) ∧
    (g.testNetParams.nDefaultPort = 16383 ∧ g.testNetParams.nRPCPort = 16384) ∧
    (g.regTestParams.nDefaultPort = 26244 ∧ g.regTestParams.nRPCPort = 16384) := by
  obtain ⟨wa, wb, hm, ht, hr, -⟩ := staticInit_inv S O T w w1 g h
  obtain ⟨-, -, m2, m3, -⟩ := CMainParams_inv S O T w wa g.mainParams hm
  obtain ⟨-, -, t2, t3, -⟩ := CTestNetParams_inv S O T wa wb g.testNetParams ht
  obtain ⟨-, -, r2, r3, -⟩ := CRegTestParams_inv S O T wb w1 g.regTestParams hr
  exact ⟨⟨m2, m3⟩, ⟨t2, t3⟩, ⟨r2, r3⟩⟩

/-- C10 fails as stated: in the constructed statics the RPC ports are not pairwise
distinct, Regtest having the same `nRPCPort` as Testnet. -/
theorem C10_counterexample :
    ∃ g w1, staticInit demoServices demoOracle demoTables world0 = some (g, w1) ∧
      ¬ (g.mainParams.nRPCPort ≠ g.testNetParams.nRPCPort ∧
         g.mainParams.nRPCPort ≠ g.regTestParams.nRPCPort ∧
         g.testNetParams.nRPCPort ≠ g.regTestParams.nRPCPort) := by
  obtain ⟨⟨g, w1⟩, h⟩ := demo_staticInit_some
  obtain ⟨-, ⟨-, t3⟩, ⟨-, r3⟩⟩ := staticInit_ports _ _ _ _ _ _ h
  refine ⟨g, w1, h, ?_⟩
  rintro ⟨-, -, hne⟩
  exact hne (t3.trans r3.symm)

/-- C10, amended: every `nDefaultPort` and `nRPCPort` of the constructed sets lies in
`0..65535`; `nDefaultPort` is 32767 for Main, 16383 for Testnet and 26244 for Regtest,
pairwise distinct; `nRPCPort` is 32768 for Main, which differs from Testnet's and from
Regtest's, and Regtest keeps the `nRPCPort` of Testnet (both 16384), which its
constructor does not reassign. -/
theorem C10_ports (S : Services) (O : Oracle) (T : SeedTables)
    (w w1 : World) (g : Globals) (h : staticInit S O T w = some (g, w1)) :
    (∀ port ∈ [g.mainParams.nDefaultPort, g.testNetParams.nDefaultPort,
        g.regTestParams.nDefaultPort, g.mainParams.nRPCPort, g.testNetParams.nRPCPort,
        g.regTestParams.nRPCPort], 0 ≤ port ∧ port ≤ 65535) ∧
    g.mainParams.nDefaultPort = 32767 ∧
    g.testNetParams.nDefaultPort = 16383 ∧
    g.regTestParams.nDefaultPort = 26244 ∧
    g.mainParams.nDefaultPort ≠ g.testNetParams.nDefaultPort ∧
    g.mainParams.nDefaultPort ≠ g.regTestParams.nDefaultPort ∧
    g.testNetParams.nDefaultPort ≠ g.regTestParams.nDefaultPort ∧
    g.mainParams.nRPCPort = 32768 ∧
    g.testNetParams.nRPCPort = 16384 ∧
    g.regTestParams.nRPCPort = 16384 ∧
    g.mainParams.nRPCPort ≠ g.testNetParams.nRPCPort ∧
    g.mainParams.nRPCPort ≠ g.regTestParams.nRPCPort ∧
    g.regTestParams.nRPCPort = g.testNetParams.nRPCPort := by
  obtain ⟨⟨m2, m3⟩, ⟨t2, t3⟩, ⟨r2, r3⟩⟩ := staticInit_ports S O T w w1 g h
  rw [m2, m3, t2, t3, r2, r3]
  decide

/-- Witness of C10 amended: the sample services and tables. -/
theorem C10_ports_witness :
    ∃ g w1, staticInit demoServices demoOracle demoTables world0 = some (g, w1) ∧
      (∀ port ∈ [g.mainParams.nDefaultPort, g.testNetParams.nDefaultPort,
          g.regTestParams.nDefaultPort, g.mainParams.nRPCPort, g.testNetParams.nRPCPort,
          g.regTestParams.nRPCPort], 0 ≤ port ∧ port ≤ 65535) ∧
      g.mainParams.nDefaultPort = 32767 ∧
      g.testNetParams.nDefaultPort = 16383 ∧
      g.regTestParams.nDefaultPort = 26244 ∧
      g.mainParams.nDefaultPort ≠ g.testNetParams.nDefaultPort ∧
      g.mainParams.nDefaultPort ≠ g.regTestParams.nDefaultPort ∧
      g.testNetParams.nDefaultPort ≠ g.regTestParams.nDefaultPort ∧
      g.mainParams.nRPCPort = 32768 ∧
      g.testNetParams.nRPCPort = 16384 ∧
      g.regTestParams.nRPCPort = 16384 ∧
      g.mainParams.nRPCPort ≠ g.testNetParams.nRPCPort ∧
      g.mainParams.nRPCPort ≠ g.regTestParams.nRPCPort ∧
      g.regTestParams.nRPCPort = g.testNetParams.nRPCPort := by
  obtain ⟨⟨g, w1⟩, h⟩ := demo_staticInit_some
  exact ⟨g, w1, h, C10_ports demoServices demoOracle demoTables world0 w1 g h⟩

/-! ## Difficulty limits, timing, address prefixes and genesis fields -/

/-- Proof-of-work and proof-of-stake limits of the three statics after static
initialisation. -/
theorem staticInit_limits (S : Services) (O : Oracle) (T : SeedTables) (w w1 : World)
    (g : Globals) (h : staticInit S O T w = some (g, w1)) :
    (g.mainParams.bnProofOfWorkLimit = uint256MaxShr 20 ∧
      g.mainParams.bnProofOfStakeLimit = uint256MaxShr 20) ∧
    (g.testNetParams.bnProofOfWorkLimit = uint256MaxShr 16 ∧
      g.testNetParams.bnProofOfStakeLimit = uint256MaxShr 16) ∧
    (g.regTestParams.bnProofOfWorkLimit = uint256MaxShr 1 ∧
      g.regTestParams.bnProofOfStakeLimit = uint256MaxShr 16) := by
  obtain ⟨wa, wb, hm, ht, hr, -⟩ := staticInit_inv S O T w w1 g h
  obtain ⟨-, -, -, -, m4, m5, -⟩ := CMainParams_inv S O T w wa g.mainParams hm
  obtain ⟨-, -, -, -, t4, t5, -⟩ := CTestNetParams_inv S O T wa wb g.testNetParams ht
  obtain ⟨-, -, -, -, r4, r5, -⟩ := CRegTestParams_inv S O T wb w1 g.regTestParams hr
  exact ⟨⟨m4, m5⟩, ⟨t4, t5⟩, ⟨r4, r5⟩⟩

/-- C11: `bnProofOfWorkLimit` of the constructed sets is `(2^256 - 1) >> 20` for Main,
`(2^256 - 1) >> 16` for Testnet and `(2^256 - 1) >> 1` for Regtest, so it increases
strictly from Main to Testnet to Regtest. -/
theorem C11_pow_limits (S : Services) (O : Oracle) (T : SeedTables)
    (w w1 : World) (g : Globals) (h : staticInit S O T w = some (g, w1)) :
    g.mainParams.bnProofOfWorkLimit = (2 ^ 256 - 1) >>> 20 ∧
    g.testNetParams.bnProofOfWorkLimit = (2 ^ 256 - 1) >>> 16 ∧
    g.regTestParams.bnProofOfWorkLimit = (2 ^ 256 - 1) >>> 1 ∧
    g.mainParams.bnProofOfWorkLimit < g.testNetParams.bnProofOfWorkLimit ∧
    g.testNetParams.bnProofOfWorkLimit < g.regTestParams.bnProofOfWorkLimit := by
  obtain ⟨⟨m4, -⟩, ⟨t4, -⟩, ⟨r4, -⟩⟩ := staticInit_limits S O T w w1 g h
  rw [m4, t4, r4]
  refine ⟨rfl, rfl, rfl, ?_, ?_⟩ <;> decide

/-- Witness of C11: the sample services and tables. -/
theorem C11_pow_limits_witness :
    ∃ g w1, staticInit demoServices demoOracle demoTables world0 = some (g, w1) ∧
      g.mainParams.bnProofOfWorkLimit = (2 ^ 256 - 1) >>> 20 ∧
      g.testNetParams.bnProofOfWorkLimit = (2 ^ 256 - 1) >>> 16 ∧
      g.regTestParams.bnProofOfWorkLimit = (2 ^ 256 - 1) >>> 1 ∧
      g.mainParams.bnProofOfWorkLimit < g.testNetParams.bnProofOfWorkLimit ∧
      g.testNetParams.bnProofOfWorkLimit < g.regTestParams.bnProofOfWorkLimit := by
  obtain ⟨⟨g, w1⟩, h⟩ := demo_staticInit_some
  exact ⟨g, w1, h, C11_pow_limits demoServices demoOracle demoTables world0 w1 g h⟩

/-- C12 fails as stated: in the constructed statics Regtest's `bnProofOfStakeLimit` is not
`(2^256 - 1) >> 1` and is not above Testnet's. -/
theorem C12_counterexample :
    ∃ g w1, staticInit demoServices demoOracle demoTables world0 = some (g, w1) ∧
      g.regTestParams.bnProofOfStakeLimit ≠ (2 ^ 256 - 1) >>> 1 ∧
      ¬ (g.testNetParams.bnProofOfStakeLimit < g.regTestParams.bnProofOfStakeLimit) := by
  obtain ⟨⟨g, w1⟩, h⟩ := demo_staticInit_some
  obtain ⟨-, ⟨-, t5⟩, ⟨-, r5⟩⟩ := staticInit_limits _ _ _ _ _ _ h
  refine ⟨g, w1, h, ?_, ?_⟩
  · rw [r5]; decide
  · rw [t5, r5]; decide

/-- C12, amended: `bnProofOfStakeLimit` of the constructed sets is `(2^256 - 1) >> 20` for
Main and `(2^256 - 1) >> 16` for Testnet, strictly above Main's; Regtest, whose
constructor reassigns only the proof-of-work limit, keeps Testnet's
`(2^256 - 1) >> 16`. -/
theorem C12_pos_limits (S : Services) (O : Oracle) (T : SeedTables)
    (w w1 : World) (g : Globals) (h : staticInit S O T w = some (g, w1)) :
    g.mainParams.bnProofOfStakeLimit = (2 ^ 256 - 1) >>> 20 ∧
    g.testNetParams.bnProofOfStakeLimit = (2 ^ 256 - 1) >>> 16 ∧
    g.regTestParams.bnProofOfStakeLimit = (2 ^ 256 - 1) >>> 16 ∧
    g.regTestParams.bnProofOfStakeLimit = g.testNetParams.bnProofOfStakeLimit ∧
    g.mainParams.bnProofOfStakeLimit < g.testNetParams.bnProofOfStakeLimit := by
  obtain ⟨⟨-, m5⟩, ⟨-, t5⟩, ⟨-, r5⟩⟩ := staticInit_limits S O T w w1 g h
  rw [m5, t5, r5]
  refine ⟨rfl, rfl, rfl, rfl, ?_⟩
  decide

/-- Witness of C12 amended: the sample services and tables. -/
theorem C12_pos_limits_witness :
    ∃ g w1, staticInit demoServices demoOracle demoTables world0 = some (g, w1) ∧
      g.mainParams.bnProofOfStakeLimit = (2 ^ 256 - 1) >>> 20 ∧
      g.testNetParams.bnProofOfStakeLimit = (2 ^ 256 - 1) >>> 16 ∧
      g.regTestParams.bnProofOfStakeLimit = (2 ^ 256 - 1) >>> 16 ∧
      g.regTestParams.bnProofOfStakeLimit = g.testNetParams.bnProofOfStakeLimit ∧
      g.mainParams.bnProofOfStakeLimit < g.testNetParams.bnProofOfStakeLimit := by
  obtain ⟨⟨g, w1⟩, h⟩ := demo_staticInit_some
  exact ⟨g, w1, h, C12_pos_limits demoServices demoOracle demoTables world0 w1 g h⟩

/-- C13, as the code behaves: Main has `nTargetSpacing = 60` and
`nTargetTimespan = 10 * nTargetSpacing`; Testnet and Regtest have `nTargetSpacing = 30`
but still the `nTargetTimespan = 600` computed by the `CMainParams()` body, which is not
`10 * nTargetSpacing`. -/
theorem C13_target_timespan_stale (S : Services) (O : Oracle) (T : SeedTables)
    (w w1 : World) (g : Globals) (h : staticInit S O T w = some (g, w1)) :
    (g.mainParams.nTargetSpacing = 60 ∧
      g.mainParams.nTargetTimespan = 10 * g.mainParams.nTargetSpacing) ∧
    (g.testNetParams.nTargetSpacing = 30 ∧ g.testNetParams.nTargetTimespan = 600 ∧
      g.testNetParams.nTargetTimespan ≠ 10 * g.testNetParams.nTargetSpacing) ∧
    (g.regTestParams.nTargetSpacing = 30 ∧ g.regTestParams.nTargetTimespan = 600 ∧
      g.regTestParams.nTargetTimespan ≠ 10 * g.regTestParams.nTargetSpacing) := by
  obtain ⟨wa, wb, hm, ht, hr, -⟩ := staticInit_inv S O T w w1 g h
  obtain ⟨-, -, -, -, -, -, -, -, -, m9, m10, -⟩ :=
    CMainParams_inv S O T w wa g.mainParams hm
  obtain ⟨-, -, -, -, -, -, -, -, -, t9, t10, -⟩ :=
    CTestNetParams_inv S O T wa wb g.testNetParams ht
  obtain ⟨-, -, -, -, -, -, -, -, -, r9, r10, -⟩ :=
    CRegTestParams_inv S O T wb w1 g.regTestParams hr
  rw [m9, m10, t9, t10, r9, r10]
  decide

/-- Witness of C13: the sample services and tables. -/
theorem C13_target_timespan_stale_witness :
    ∃ g w1, staticInit demoServices demoOracle demoTables world0 = some (g, w1) ∧
      (g.mainParams.nTargetSpacing = 60 ∧
        g.mainParams.nTargetTimespan = 10 * g.mainParams.nTargetSpacing) ∧
      (g.testNetParams.nTargetSpacing = 30 ∧ g.testNetParams.nTargetTimespan = 600 ∧
        g.testNetParams.nTargetTimespan ≠ 10 * g.testNetParams.nTargetSpacing) ∧
      (g.regTestParams.nTargetSpacing = 30 ∧ g.regTestParams.nTargetTimespan = 600 ∧
        g.regTestParams.nTargetTimespan ≠ 10 * g.regTestParams.nTargetSpacing) := by
  obtain ⟨⟨g, w1⟩, h⟩ := demo_staticInit_some
  exact ⟨g, w1, h, C13_target_timespan_stale demoServices demoOracle demoTables world0 w1 g h⟩

/-- C14: in each constructed parameter set the prefixes of `PUBKEY_ADDRESS`,
`SCRIPT_ADDRESS` and `SECRET_KEY` are one byte long, those of `EXT_PUBLIC_KEY` and
`EXT_SECRET_KEY` four bytes long, and the five prefixes of one network are pairwise
different. -/
theorem C14_base58_prefixes (S : Services) (O : Oracle) (T : SeedTables)
    (w w1 : World) (g : Globals) (h : staticInit S O T w = some (g, w1)) :
    ∀ b ∈ [g.mainParams.base58Prefixes, g.testNetParams.base58Prefixes,
        g.regTestParams.base58Prefixes],
      b.PUBKEY_ADDRESS.length = 1 ∧ b.SCRIPT_ADDRESS.length = 1 ∧ b.SECRET_KEY.length = 1 ∧
      b.EXT_PUBLIC_KEY.length = 4 ∧ b.EXT_SECRET_KEY.length = 4 ∧
      [b.PUBKEY_ADDRESS, b.SCRIPT_ADDRESS, b.SECRET_KEY, b.EXT_PUBLIC_KEY,
        b.EXT_SECRET_KEY].Pairwise (fun x y => x ≠ y) := by
  obtain ⟨wa, wb, hm, ht, hr, -⟩ := staticInit_inv S O T w w1 g h
  obtain ⟨-, -, -, -, -, -, -, -, -, -, -, -, -, -, -, -, -, -, -, m19⟩ :=
    CMainParams_inv S O T w wa g.mainParams hm
  obtain ⟨-, -, -, -, -, -, -, -, -, -, -, -, -, -, -, -, -, -, -, t19⟩ :=
    CTestNetParams_inv S O T wa wb g.testNetParams ht
  obtain ⟨-, -, -, -, -, -, -, -, -, -, -, -, -, -, -, -, -, -, -, r19⟩ :=
    CRegTestParams_inv S O T wb w1 g.regTestParams hr
  rw [m19, t19, r19]
  decide

/-- Witness of C14: the sample services and tables. -/
theorem C14_base58_prefixes_witness :
    ∃ g w1, staticInit demoServices demoOracle demoTables world0 = some (g, w1) ∧
      ∀ b ∈ [g.mainParams.base58Prefixes, g.testNetParams.base58Prefixes,
          g.regTestParams.base58Prefixes],
        b.PUBKEY_ADDRESS.length = 1 ∧ b.SCRIPT_ADDRESS.length = 1 ∧ b.SECRET_KEY.length = 1 ∧
        b.EXT_PUBLIC_KEY.length = 4 ∧ b.EXT_SECRET_KEY.length = 4 ∧
        [b.PUBKEY_ADDRESS, b.SCRIPT_ADDRESS, b.SECRET_KEY, b.EXT_PUBLIC_KEY,
          b.EXT_SECRET_KEY].Pairwise (fun x y => x ≠ y) := by
  obtain ⟨⟨g, w1⟩, h⟩ := demo_staticInit_some
  exact ⟨g, w1, h, C14_base58_prefixes demoServices demoOracle demoTables world0 w1 g h⟩

/-- C15, as the code behaves: the Testnet genesis block keeps the `nTime` of Main's
genesis block (1437591600); only `nNonce` (344459 against 1061886) and `nBits` are
reassigned, `nBits` being the compact form of the respective proof-of-work limit. -/
theorem C15_testnet_genesis_time_kept (S : Services) (O : Oracle) (T : SeedTables)
    (w w1 : World) (g : Globals) (h : staticInit S O T w = some (g, w1)) :
    g.mainParams.genesis.nTime = 1437591600 ∧
    g.testNetParams.genesis.nTime = g.mainParams.genesis.nTime ∧
    g.mainParams.genesis.nNonce = 1061886 ∧
    g.testNetParams.genesis.nNonce = 344459 ∧
    g.testNetParams.genesis.nNonce ≠ g.mainParams.genesis.nNonce ∧
    g.mainParams.genesis.nBits = S.GetCompact ((2 ^ 256 - 1) >>> 20) ∧
    g.testNetParams.genesis.nBits = S.GetCompact g.testNetParams.bnProofOfWorkLimit ∧
    g.testNetParams.genesis.nBits = S.GetCompact ((2 ^ 256 - 1) >>> 16) := by
  obtain ⟨wa, wb, hm, ht, hr, -⟩ := staticInit_inv S O T w w1 g h
  obtain ⟨-, -, -, -, -, -, -, -, -, -, -, -, -, m13, m14, m15, -⟩ :=
    CMainParams_inv S O T w wa g.mainParams hm
  obtain ⟨-, -, -, -, t4, -, -, -, -, -, -, -, -, t13, t14, t15, -⟩ :=
    CTestNetParams_inv S O T wa wb g.testNetParams ht
  rw [m13, m14, m15, t13, t14, t15, t4]
  exact ⟨rfl, rfl, rfl, rfl, by decide, rfl, rfl, rfl⟩

/-- Witness of C15: the sample services and tables. -/
theorem C15_testnet_genesis_time_kept_witness :
    ∃ g w1, staticInit demoServices demoOracle demoTables world0 = some (g, w1) ∧
      g.mainParams.genesis.nTime = 1437591600 ∧
      g.testNetParams.genesis.nTime = g.mainParams.genesis.nTime ∧
      g.mainParams.genesis.nNonce = 1061886 ∧
      g.testNetParams.genesis.nNonce = 344459 ∧
      g.testNetParams.genesis.nNonce ≠ g.mainParams.genesis.nNonce ∧
      g.mainParams.genesis.nBits = demoServices.GetCompact ((2 ^ 256 - 1) >>> 20) ∧
      g.testNetParams.genesis.nBits
        = demoServices.GetCompact g.testNetParams.bnProofOfWorkLimit ∧
      g.testNetParams.genesis.nBits = demoServices.GetCompact ((2 ^ 256 - 1) >>> 16) := by
  obtain ⟨⟨g, w1⟩, h⟩ := demo_staticInit_some
  exact ⟨g, w1, h,
    C15_testnet_genesis_time_kept demoServices demoOracle demoTables world0 w1 g h⟩

/-! ## Reachable states of the selection -/

/-- Effect of one call on the statics: it returns, keeps the three objects, and the
active network becomes the call's selection, or stays as it was when the call selects
nothing. -/
theorem Call_run_spec (c : Call) (g : Globals)
    (hc : ∀ n, c = Call.selectParams n →
      n = Network.MAIN ∨ n = Network.TESTNET ∨ n = Network.REGTEST) :
    ∃ g1, c.run g = some g1 ∧
      g1.mainParams = g.mainParams ∧ g1.testNetParams = g.testNetParams ∧
      g1.regTestParams = g.regTestParams ∧
      (Params g1).NetworkID = (c.selection).getD (Params g).NetworkID := by
  cases c with
  | selectParams n =>
    rcases hc n rfl with h | h | h <;> subst h
    · exact ⟨{ g with pCurrentParams := ParamsPtr.mainParams }, rfl, rfl, rfl, rfl, rfl⟩
    · exact ⟨{ g with pCurrentParams := ParamsPtr.testNetParams }, rfl, rfl, rfl, rfl, rfl⟩
    · exact ⟨{ g with pCurrentParams := ParamsPtr.regTestParams }, rfl, rfl, rfl, rfl, rfl⟩
  | selectParamsFromCommandLine f =>
    simp only [Call.run, Call.selection, SelectParamsFromCommandLine, SelectParams]
    cases hr : f "-regtest" false <;> cases ht : f "-testnet" false <;>
      simp [Params, CChainParamsRef.NetworkID]

/-- Effect of a call sequence, from any statics. -/
theorem runCalls_spec (calls : List Call) (g : Globals)
    (hc : ∀ n, Call.selectParams n ∈ calls →
      n = Network.MAIN ∨ n = Network.TESTNET ∨ n = Network.REGTEST) :
    ∃ g1, runCalls calls g = some g1 ∧
      g1.mainParams = g.mainParams ∧ g1.testNetParams = g.testNetParams ∧
      g1.regTestParams = g.regTestParams ∧
      (Params g1).NetworkID = mostRecentSelection (Params g).NetworkID calls := by
  induction calls generalizing g with
  | nil => exact ⟨g, rfl, rfl, rfl, rfl, rfl⟩
  | cons c cs ih =>
    obtain ⟨g1, h1, hm, ht, hr, hn⟩ :=
      Call_run_spec c g (fun n hn => hc n (by rw [hn]; exact List.mem_cons_self _ _))
    obtain ⟨g2, h2, hm2, ht2, hr2, hn2⟩ :=
      ih g1 (fun n hn => hc n (List.mem_cons_of_mem _ hn))
    refine ⟨g2, ?_, hm2.trans hm, ht2.trans ht, hr2.trans hr, ?_⟩
    · simp [runCalls, h1, h2]
    · rw [hn2, hn]
      unfold mostRecentSelection
      rw [List.filterMap_cons]
      cases hs : c.selection with
      | none => simp
      | some n => simp [List.getLast?_cons]

/-- The referenced object is determined by the statics and the active network. -/
theorem Params_of_NetworkID (g : Globals) :
    ((Params g).NetworkID = Network.MAIN → Params g = CChainParamsRef.ofMain g.mainParams) ∧
    ((Params g).NetworkID = Network.TESTNET →
      Params g = CChainParamsRef.ofTestNet g.testNetParams) ∧
    ((Params g).NetworkID = Network.REGTEST →
      Params g = CChainParamsRef.ofRegTest g.regTestParams) ∧
    (Params g = CChainParamsRef.ofMain g.mainParams ∨
      Params g = CChainParamsRef.ofTestNet g.testNetParams ∨
      Params g = CChainParamsRef.ofRegTest g.regTestParams) := by
  cases hp : g.pCurrentParams <;> simp [Params, hp, CChainParamsRef.NetworkID]

/-- C16: after static initialisation the active network is Main, and after any finite
sequence of `SelectParams(n)` (with `n` one of the three networks) and
`SelectParamsFromCommandLine` calls (with any flag values) the run returns, `Params()` is
one of the three constructed parameter sets, and it is the set of the network chosen by
the most recent successful selection, Main when there was none. -/
theorem C16_reachable_states (S : Services) (O : Oracle) (T : SeedTables)
    (w w1 : World) (g0 : Globals) (calls : List Call)
    (h : staticInit S O T w = some (g0, w1))
    (hc : ∀ n, Call.selectParams n ∈ calls →
      n = Network.MAIN ∨ n = Network.TESTNET ∨ n = Network.REGTEST) :
    Params g0 = CChainParamsRef.ofMain g0.mainParams ∧
    ∃ g, runCalls calls g0 = some g ∧
      (Params g = CChainParamsRef.ofMain g0.mainParams ∨
        Params g = CChainParamsRef.ofTestNet g0.testNetParams ∨
        Params g = CChainParamsRef.ofRegTest g0.regTestParams) ∧
      (Params g).NetworkID = mostRecentSelection Network.MAIN calls ∧
      (mostRecentSelection Network.MAIN calls = Network.MAIN →
        Params g = CChainParamsRef.ofMain g0.mainParams) ∧
      (mostRecentSelection Network.MAIN calls = Network.TESTNET →
        Params g = CChainParamsRef.ofTestNet g0.testNetParams) ∧
      (mostRecentSelection Network.MAIN calls = Network.REGTEST →
        Params g = CChainParamsRef.ofRegTest g0.regTestParams) := by
  obtain ⟨-, -, -, -, -, hp⟩ := staticInit_inv S O T w w1 g0 h
  have h0 : Params g0 = CChainParamsRef.ofMain g0.mainParams := by simp [Params, hp]
  have hn0 : (Params g0).NetworkID = Network.MAIN := by rw [h0]; rfl
  obtain ⟨g, hrun, hm, ht, hr, hn⟩ := runCalls_spec calls g0 hc
  rw [hn0] at hn
  obtain ⟨p1, p2, p3, p4⟩ := Params_of_NetworkID g
  rw [hm] at p1 p4
  rw [ht] at p2 p4
  rw [hr] at p3 p4
  exact ⟨h0, g, hrun, p4, hn, fun e => p1 (hn.trans e), fun e => p2 (hn.trans e),
    fun e => p3 (hn.trans e)⟩

/-- Witness of C16: the sample construction followed by the sample call sequence. -/
theorem C16_reachable_states_witness :
    ∃ g0 w1, staticInit demoServices demoOracle demoTables world0 = some (g0, w1) ∧
      Params g0 = CChainParamsRef.ofMain g0.mainParams ∧
      ∃ g, runCalls demoCalls g0 = some g ∧
        (Params g = CChainParamsRef.ofMain g0.mainParams ∨
          Params g = CChainParamsRef.ofTestNet g0.testNetParams ∨
          Params g = CChainParamsRef.ofRegTest g0.regTestParams) ∧
        (Params g).NetworkID = mostRecentSelection Network.MAIN demoCalls ∧
        (mostRecentSelection Network.MAIN demoCalls = Network.MAIN →
          Params g = CChainParamsRef.ofMain g0.mainParams) ∧
        (mostRecentSelection Network.MAIN demoCalls = Network.TESTNET →
          Params g = CChainParamsRef.ofTestNet g0.testNetParams) ∧
        (mostRecentSelection Network.MAIN demoCalls = Network.REGTEST →
          Params g = CChainParamsRef.ofRegTest g0.regTestParams) := by
  obtain ⟨⟨g0, w1⟩, h⟩ := demo_staticInit_some
  refine ⟨g0, w1, h,
    C16_reachable_states demoServices demoOracle demoTables world0 w1 g0 demoCalls h ?_⟩
  intro n hn
  simp only [demoCalls, List.mem_cons, Call.selectParams.injEq, List.mem_singleton,
    List.not_mem_nil, or_false, reduceCtorEq, false_or] at hn
  rcases hn with hn | hn
  · exact Or.inr (Or.inl hn)
  · exact Or.inl hn

/-- The sample call sequence ends with Testnet selected. -/
theorem demoCalls_mostRecentSelection :
    mostRecentSelection Network.MAIN demoCalls = Network.TESTNET := by
  decide

end ChainParams

namespace GUIUtil

/-! ## The `QUrl` overload of `parseBitcoinURI` -/

theorem loopBody_none_iff (parse : QString → Option Int) (i : QString × QString)
    (rv : SendCoinsRecipient) :
    parseBitcoinURI.loopBody parse i rv = none ↔ rejected parse i := by
  have hla : qs "label" ≠ qs "amount" := by decide
  unfold parseBitcoinURI.loopBody rejected keyWithoutReq isEmpty
  cases hreq : startsWith i.1 (qs "req-") <;> simp only [if_true, if_false, Bool.false_eq_true]
  · by_cases h1 : i.1 = qs "label"
    · simp [h1, hla]
    · by_cases h2 : i.1 = qs "amount"
      · cases hv : i.2 with
        | nil => simp [h1, h2, hla.symm]
        | cons c cs => cases hp : parse (c :: cs) <;> simp [h1, h2, hp, hla.symm]
      · simp [h1, h2, hla.symm]
  · by_cases h1 : remove i.1 0 4 = qs "label"
    · simp [h1, hla]
    · by_cases h2 : remove i.1 0 4 = qs "amount"
      · cases hv : i.2 with
        | nil => simp [h1, h2, hla.symm]
        | cons c cs => cases hp : parse (c :: cs) <;> simp [h1, h2, hp, hla.symm]
      · simp [h1, h2, hla.symm]

theorem loopBody_some (parse : QString → Option Int) (i : QString × QString)
    (rv rv1 : SendCoinsRecipient) (h : parseBitcoinURI.loopBody parse i rv = some rv1) :
    rv1 =
      { address := rv.address
        label := if keyWithoutReq i.1 = qs "label" then i.2 else rv.label
        amount :=
          (if keyWithoutReq i.1 = qs "amount" ∧ i.2 ≠ [] then parse i.2
            else none).getD rv.amount } := by
  have hla : qs "label" ≠ qs "amount" := by decide
  unfold parseBitcoinURI.loopBody isEmpty at h
  unfold keyWithoutReq
  cases hreq : startsWith i.1 (qs "req-") <;>
    simp only [hreq, if_true, if_false, Bool.false_eq_true] at h ⊢
  · by_cases h1 : i.1 = qs "label"
    · simp [h1, hla] at h ⊢
      exact h.symm
    · by_cases h2 : i.1 = qs "amount"
      · cases hv : i.2 with
        | nil => simp [h1, h2, hv, hla.symm] at h ⊢; exact h.symm
        | cons c cs =>
          cases hp : parse (c :: cs) <;> simp [h1, h2, hv, hp, hla.symm] at h ⊢
          exact h.symm
      · simp [h1, h2] at h ⊢
        exact h.symm
  · by_cases h1 : remove i.1 0 4 = qs "label"
    · simp [h1, hla] at h ⊢
      exact h.symm
    · by_cases h2 : remove i.1 0 4 = qs "amount"
      · cases hv : i.2 with
        | nil => simp [h1, h2, hv, hla.symm] at h ⊢; exact h.symm
        | cons c cs =>
          cases hp : parse (c :: cs) <;> simp [h1, h2, hv, hp, hla.symm] at h ⊢
          exact h.symm
      · simp [h1, h2] at h

theorem loopBody_otherKey (parse : QString → Option Int) (i : QString × QString)
    (rv : SendCoinsRecipient) (h : otherKey i) :
    parseBitcoinURI.loopBody parse i rv = some rv := by
  obtain ⟨h0, h1, h2⟩ := h
  simp [parseBitcoinURI.loopBody, h0, h1, h2]

theorem loop_none_iff (parse : QString → Option Int) (items : List (QString × QString))
    (rv : SendCoinsRecipient) :
    parseBitcoinURI.loop parse items rv = none ↔ ∃ i ∈ items, rejected parse i := by
  induction items generalizing rv with
  | nil => simp [parseBitcoinURI.loop]
  | cons i items ih =>
    cases hb : parseBitcoinURI.loopBody parse i rv with
    | none =>
      simp only [parseBitcoinURI.loop, hb, true_iff]
      exact ⟨i, List.mem_cons_self _ _, (loopBody_none_iff parse i rv).mp hb⟩
    | some rv1 =>
      have hnot : ¬ rejected parse i := fun hr => by
        rw [← loopBody_none_iff parse i rv, hb] at hr
        cases hr
      simp only [parseBitcoinURI.loop, hb, ih rv1, List.mem_cons, exists_eq_or_imp, hnot,
        false_or]

theorem loop_some (parse : QString → Option Int) (items : List (QString × QString))
    (rv rv1 : SendCoinsRecipient) (h : parseBitcoinURI.loop parse items rv = some rv1) :
    rv1 =
      { address := rv.address
        label := (((items.filter (fun i => keyWithoutReq i.1 = qs "label")).getLast?).map
          Prod.snd).getD rv.label
        amount := ((items.filterMap (fun i =>
          if keyWithoutReq i.1 = qs "amount" ∧ i.2 ≠ [] then parse i.2
          else none)).getLast?).getD rv.amount } := by
  induction items generalizing rv with
  | nil =>
    simp only [parseBitcoinURI.loop, Option.some.injEq] at h
    simp [← h]
  | cons i items ih =>
    cases hb : parseBitcoinURI.loopBody parse i rv with
    | none => simp [parseBitcoinURI.loop, hb] at h
    | some rv2 =>
      simp only [parseBitcoinURI.loop, hb] at h
      have h2 := loopBody_some parse i rv rv2 hb
      rw [ih rv2 h, h2]
      simp only [List.filter_cons, List.filterMap_cons]
      congr 1
      · by_cases hl : keyWithoutReq i.1 = qs "label"
        · simp [hl, List.getLast?_cons]
        · simp [hl]
      · cases ha : (if keyWithoutReq i.1 = qs "amount" ∧ i.2 ≠ [] then parse i.2 else none) with
        | none => simp
        | some v => simp [List.getLast?_cons]

theorem loop_append (parse : QString → Option Int) (pre post : List (QString × QString))
    (rv : SendCoinsRecipient) :
    parseBitcoinURI.loop parse (pre ++ post) rv
      = (parseBitcoinURI.loop parse pre rv).bind (parseBitcoinURI.loop parse post) := by
  induction pre generalizing rv with
  | nil => rfl
  | cons i pre ih =>
    cases hb : parseBitcoinURI.loopBody parse i rv with
    | none => simp [parseBitcoinURI.loop, hb]
    | some rv1 => simp [parseBitcoinURI.loop, hb, ih]

/-- C18: for a URL with scheme `bioscrypto`, `parseBitcoinURI` returns `false` exactly
when some query item is rejected (a `req-` key whose remainder is neither `label` nor
`amount`, or an `amount` key with a non-empty value that `BitcoinUnits::parse` rejects);
on success what `out` points to becomes the recipient with the URL's path as address, the
value of the last label item (empty if none) and the last parsed non-empty amount (0 if
none); on failure `*out` is unchanged; for any other scheme the result is `false` with
`*out` unchanged; an item with any other key can be dropped without changing the result. -/
theorem C18_parseBitcoinURI_QUrl (parse : QString → Option Int) (uri : QUrl)
    (out : Option SendCoinsRecipient) :
    (uri.scheme = qs "bioscrypto" →
      ((parseBitcoinURI parse uri out).1 = false ↔
        ∃ i ∈ uri.queryItems, rejected parse i) ∧
      ((parseBitcoinURI parse uri out).1 = true →
        (parseBitcoinURI parse uri out).2 = out.map (fun _ =>
          { address := uri.path
            label := lastLabel uri.queryItems
            amount := lastAmount parse uri.queryItems })) ∧
      ((parseBitcoinURI parse uri out).1 = false → (parseBitcoinURI parse uri out).2 = out)) ∧
    (uri.scheme ≠ qs "bioscrypto" → parseBitcoinURI parse uri out = (false, out)) ∧
    (∀ pre post i, uri.queryItems = pre ++ i :: post → otherKey i →
      parseBitcoinURI parse uri out
        = parseBitcoinURI parse { uri with queryItems := pre ++ post } out) := by
  refine ⟨?_, ?_, ?_⟩
  · intro hs
    cases hl : parseBitcoinURI.loop parse uri.queryItems
        { address := uri.path, label := [], amount := 0 } with
    | none =>
      have hex := (loop_none_iff parse uri.queryItems _).mp hl
      simp [parseBitcoinURI, hs, hl, hex]
    | some rv =>
      have hnex : ¬ ∃ i ∈ uri.queryItems, rejected parse i := fun hex => by
        rw [← loop_none_iff parse uri.queryItems
          { address := uri.path, label := [], amount := 0 }, hl] at hex
        cases hex
      have hrv := loop_some parse uri.queryItems _ rv hl
      cases out with
      | none => simp [parseBitcoinURI, hs, hl, hnex]
      | some r =>
        simp only [parseBitcoinURI, hs, hl, hnex, ne_eq, not_true_eq_false, if_false,
          Bool.true_eq_false, false_iff, not_false_eq_true, true_and, Option.map_some',
          Option.some.injEq, false_implies, and_true, implies_true, iff_false]
        simp [hrv, lastLabel, lastAmount]
  · intro hs
    simp [parseBitcoinURI, hs]
  · intro pre post i hq hi
    have hloop : ∀ rv, parseBitcoinURI.loop parse (pre ++ i :: post) rv
        = parseBitcoinURI.loop parse (pre ++ post) rv := by
      intro rv
      rw [loop_append, loop_append]
      cases parseBitcoinURI.loop parse pre rv with
      | none => rfl
      | some rv1 =>
        simp only [Option.some_bind, parseBitcoinURI.loop, loopBody_otherKey parse i rv1 hi]
    simp only [parseBitcoinURI, hq, hloop]

/-- Witness of C18: the sample URL, parsed into a recipient that `out` already points to. -/
theorem C18_parseBitcoinURI_QUrl_witness :
    parseBitcoinURI demoParse demoUrl (some demoRecipient)
      = (true, some { address := qs "BJ7xSampleAddress", label := qs "till 3",
                      amount := 1200000000 }) ∧
    ((parseBitcoinURI demoParse demoUrl (some demoRecipient)).1 = false ↔
      ∃ i ∈ demoUrl.queryItems, rejected demoParse i) ∧
    ((parseBitcoinURI demoParse demoUrl (some demoRecipient)).1 = true →
      (parseBitcoinURI demoParse demoUrl (some demoRecipient)).2
        = (some demoRecipient).map (fun _ =>
          { address := demoUrl.path
            label := lastLabel demoUrl.queryItems
            amount := lastAmount demoParse demoUrl.queryItems })) ∧
    ((parseBitcoinURI demoParse demoUrl (some demoRecipient)).1 = false →
      (parseBitcoinURI demoParse demoUrl (some demoRecipient)).2 = some demoRecipient) :=
  ⟨by decide, (C18_parseBitcoinURI_QUrl demoParse demoUrl (some demoRecipient)).1 (by decide)⟩

/-! ## The `QString` overload of `parseBitcoinURI` -/

theorem qs_bioscrypto_slashes :
    qs "bioscrypto://" = ['b', 'i', 'o', 's', 'c', 'r', 'y', 'p', 't', 'o', ':', '/', '/'] := by
  decide

theorem qs_bioscrypto_colon :
    qs "bioscrypto:" = ['b', 'i', 'o', 's', 'c', 'r', 'y', 'p', 't', 'o', ':'] := by
  decide

theorem qs_bioscrypto_slash :
    qs "bioscrypto:/" = ['b', 'i', 'o', 's', 'c', 'r', 'y', 'p', 't', 'o', ':', '/'] := by
  decide

/-- An input that does not start with `bioscrypto://` reaches the `QUrl` constructor
unchanged. -/
theorem convertedUri_of_not_startsWith (uri : QString)
    (h : startsWith uri (qs "bioscrypto://") = false) :
    parseBitcoinURI.convertedUri uri = uri := by
  simp [parseBitcoinURI.convertedUri, h]

/-- C17, as the code behaves: for every `s` the string overload turns
`"bioscrypto://" ++ s` into `"bioscrypto:/" ++ s` before building the `QUrl`: only 12 of
the 13 characters of `bioscrypto://` are replaced, one `/` stays, and the result differs
from `"bioscrypto:" ++ s`. -/
theorem C17_convertedUri_keeps_one_slash (s : QString) :
    parseBitcoinURI.convertedUri (qs "bioscrypto://" ++ s) = qs "bioscrypto:/" ++ s ∧
    parseBitcoinURI.convertedUri (qs "bioscrypto://" ++ s) ≠ qs "bioscrypto:" ++ s ∧
    (qs "bioscrypto://").length = 13 ∧
    ∀ (mkQUrl : QString → QUrl) (parse : QString → Option Int)
      (out : Option SendCoinsRecipient),
      parseBitcoinURI_QString mkQUrl parse (qs "bioscrypto://" ++ s) out
        = parseBitcoinURI parse (mkQUrl (qs "bioscrypto:/" ++ s)) out := by
  have h : parseBitcoinURI.convertedUri (qs "bioscrypto://" ++ s) = qs "bioscrypto:/" ++ s := by
    rw [qs_bioscrypto_slash]
    simp [parseBitcoinURI.convertedUri, startsWith, replace, qs_bioscrypto_slashes,
      qs_bioscrypto_colon, List.isPrefixOf]
  refine ⟨h, ?_, by decide, ?_⟩
  · rw [h, qs_bioscrypto_slash, qs_bioscrypto_colon]
    intro hne
    have hlen := congrArg List.length hne
    simp at hlen
  · intro mkQUrl parse out
    simp only [parseBitcoinURI_QString, h]

/-- The failing input of C17 evaluated: `bioscrypto://BJ7x` becomes `bioscrypto:/BJ7x`,
and with the sample URL parser the recipient address is `/BJ7x`, not `BJ7x`. -/
theorem convertedUri_example :
    parseBitcoinURI.convertedUri (qs "bioscrypto://BJ7x") = qs "bioscrypto:/BJ7x" ∧
    parseBitcoinURI_QString demoMkQUrl demoParse (qs "bioscrypto://BJ7x") (some demoRecipient)
      = (true, some { address := qs "/BJ7x", label := [], amount := 0 }) := by
  decide

end GUIUtil
